import Mathlib

/-!
Shallow embedding of the dark-store rack-layout optimizer.

The repository contains three copies of the same optimizer class:
* `src/optimizer.js` (class `RackOptimizer`, metric units) — namespace `Optimizer`;
* `src/unnamed/part_000` (class `RackOptimizer`, "Enhanced … with Genetic
  Algorithm", feet) — namespace `Enhanced`;
* `src/image-optimizer.js` (class `ImageLayoutOptimizer`) — namespace `ImageOpt`.

JavaScript numbers are modelled by `ℚ` wherever the code only does field
arithmetic and comparisons, and by `ℝ` where `Math.sqrt` values flow into
arithmetic (scores, average distances).  The code compares
`Math.sqrt d < m`; on the `ℚ` side this test is embedded as the equivalent
decidable test `0 < m ∧ d < m ^ 2` (see `sqrt_lt_rat_iff`, which proves the
equivalence with the `Real.sqrt` form).  Division is field division except in
`calculateMetrics`, whose `areaUtilization` is executed with denominator 0 on
degenerate layouts: there JavaScript IEEE semantics (0/0 = NaN, x/0 = ±∞) are
modelled explicitly by `jsDiv`.
-/

namespace DarkStore

/-- A 2-D point, as the `{x, y}` objects of the source. -/
structure Pt where
  x : ℚ
  y : ℚ
deriving DecidableEq, Repr

/-- A `{width, height}` dimensions object. -/
structure Size where
  width : ℚ
  height : ℚ
deriving DecidableEq, Repr

/-- A rack entity as produced by `generateRacks`: the id, the type tag, the
fields copied from the rack spec (`width`, `height`, `capacity`, `color`,
`name` — `name` is only present in the part_000/image specs and defaults to
`""` for optimizer.js), and the optional position (`null` until placed). -/
structure Rack where
  id : String
  type : String
  width : ℚ
  height : ℚ
  capacity : ℚ
  color : String := ""
  name : String := ""
  position : Option Pt
deriving DecidableEq, Repr

/-- One per-type rack specification from `this.rackSpecs`. -/
structure RackSpec where
  width : ℚ
  height : ℚ
  capacity : ℚ
  color : String
  name : String := ""
deriving DecidableEq, Repr

/-- One axis-aligned rectangle of a (possibly multi-part) store shape. -/
structure StoreSection where
  x : ℚ
  y : ℚ
  width : ℚ
  height : ℚ
deriving DecidableEq, Repr

/-- A fixed obstacle (`constraints` entry): office, exit, processing area, … -/
structure Obstacle where
  name : String := ""
  position : Pt
  dimensions : Size
  type : String := ""
  color : String := ""
deriving DecidableEq, Repr

/-- The facility layout handed to the placement and scoring functions.
`storeShape` is `none` for the optimizer.js layouts (the field is absent
there) and `some sections` for the part_000 layouts. -/
structure Layout where
  width : ℚ
  height : ℚ
  storeShape : Option (List StoreSection) := none
  constraints : List Obstacle
  entrance : Pt
  loadingDock : Pt
deriving DecidableEq, Repr

/-- The rack counts of the `config` object (`parseInt` results; a negative
count makes the generation loop run zero times, so `ℕ` is faithful). -/
structure Config where
  standardRacks : ℕ
  highDensityRacks : ℕ
  freezerRacks : ℕ
  bulkRacks : ℕ
deriving DecidableEq, Repr

/-- A JavaScript number that may be the result of dividing by zero. -/
inductive JsNum where
  | nan : JsNum
  | posInf : JsNum
  | negInf : JsNum
  | num : ℚ → JsNum
deriving DecidableEq, Repr

/-- JavaScript division for exact operands: `0/0 = NaN`, `x/0 = ±Infinity`,
otherwise exact division. -/
def jsDiv (a b : ℚ) : JsNum :=
  if b = 0 then
    if a = 0 then JsNum.nan else if 0 < a then JsNum.posInf else JsNum.negInf
  else JsNum.num (a / b)

/-- The object returned by `calculateScore`. -/
structure ScoreResult where
  totalScore : ℝ
  layoutEfficiency : ℝ
  accessibility : ℝ
  workflow : ℝ

/-- The object returned by `calculateMetrics`. -/
structure MetricsResult where
  totalRacks : ℕ
  totalCapacity : ℚ
  avgDistanceToEntrance : ℝ
  avgDistanceToDock : ℝ
  areaUtilization : JsNum

/-- The merged metrics object `{...metrics, layoutEfficiency, accessibility,
workflow}` of the returned solutions. -/
structure SolMetrics where
  totalRacks : ℕ
  totalCapacity : ℚ
  avgDistanceToEntrance : ℝ
  avgDistanceToDock : ℝ
  areaUtilization : JsNum
  layoutEfficiency : ℝ
  accessibility : ℝ
  workflow : ℝ

/-- A `{racks, score, metrics}` solution object. -/
structure Solution where
  racks : List Rack
  score : ℝ
  metrics : SolMetrics

/-! ## Geometry kernel (identical in all three files) -/

/-- `rectanglesOverlap(pos1, dim1, pos2, dim2)`: rectangles that only touch at
an edge do not overlap (`<=` separation tests).  Identical in optimizer.js
line 193, part_000 line 443 and image-optimizer.js line 573. -/
def rectanglesOverlap (pos1 : Pt) (dim1 : Size) (pos2 : Pt) (dim2 : Size) : Bool :=
  !(decide (pos1.x + dim1.width ≤ pos2.x) || decide (pos2.x + dim2.width ≤ pos1.x) ||
    decide (pos1.y + dim1.height ≤ pos2.y) || decide (pos2.y + dim2.height ≤ pos1.y))

/-- The squared Euclidean distance between two points.  The sources compute
`calculateDistance = Math.sqrt (distSq …)`; pure comparisons against a
threshold are embedded through this square (see `sqrt_lt_rat_iff`). -/
def distSq (p q : Pt) : ℚ :=
  (p.x - q.x) ^ 2 + (p.y - q.y) ^ 2

/-- `calculateDistance(pos1, pos2)` (optimizer.js line 221, part_000 line
471): the real Euclidean distance. -/
noncomputable def calculateDistance (p q : Pt) : ℝ :=
  Real.sqrt ((distSq p q : ℚ) : ℝ)

/-- The center `{x: pos.x + rack.width/2, y: pos.y + rack.height/2}` of a
rack's footprint placed at `pos`. -/
def rackCenter (r : Rack) (pos : Pt) : Pt :=
  ⟨pos.x + r.width / 2, pos.y + r.height / 2⟩

/-- The minimum required center (or, for the image variant, corner) distance
`minAisleWidth + (rackA.width + rackA.height + rackB.width + rackB.height) / 4`
of the aisle checks. -/
def minRequiredDistance (minAisleWidth : ℚ) (a b : Rack) : ℚ :=
  minAisleWidth + (a.width + a.height + b.width + b.height) / 4

/-! ## Rack generation (optimizer.js lines 65–110, part_000 lines 341–386)

Both `generateRacks` functions are the same code over the file's own
`rackSpecs`: four loops (standard, high-density, freezer, bulk) pushing
`{id: `"{type}_{id++}"`, type, ...spec, position: null}` with one `id`
counter shared by all four loops (it starts at 1 and increments per rack,
across types).  `genRacks` renders that counter arithmetically: the racks of
a block start at 1 plus the number of racks emitted by the earlier blocks. -/

/-- One `racks.push({id: type + "_" + n, type, ...spec, position: null})`. -/
def mkRack (ty : String) (spec : RackSpec) (n : ℕ) : Rack :=
  { id := ty ++ "_" ++ toString n, type := ty, width := spec.width, height := spec.height,
    capacity := spec.capacity, color := spec.color, name := spec.name, position := none }

/-- The common `generateRacks` body, parameterised by the four specs. -/
def genRacks (std hd fz bk : RackSpec) (config : Config) : List Rack :=
  ((List.range config.standardRacks).map fun i => mkRack "standard" std (1 + i)) ++
  ((List.range config.highDensityRacks).map fun i =>
      mkRack "high-density" hd (1 + config.standardRacks + i)) ++
  ((List.range config.freezerRacks).map fun i =>
      mkRack "freezer" fz (1 + config.standardRacks + config.highDensityRacks + i)) ++
  ((List.range config.bulkRacks).map fun i =>
      mkRack "bulk" bk
        (1 + config.standardRacks + config.highDensityRacks + config.freezerRacks + i))

/-! ## Shared scoring helpers (identical in optimizer.js and part_000) -/

/-- `calculateVariance(values)` (optimizer.js line 315, part_000 line 572):
population variance, 0 on an empty list. -/
def calculateVariance (values : List ℚ) : ℚ :=
  if values = [] then 0
  else
    let mean := values.sum / values.length
    (values.map fun v => (v - mean) ^ 2).sum / values.length

/-- Ascending numeric sort, as `sort((a, b) => a - b)`. -/
def sortAsc (l : List ℚ) : List ℚ :=
  l.mergeSort fun a b => decide (a ≤ b)

/-- Successive gaps `xs[i] - xs[i-1]` of a coordinate list. -/
def gaps (xs : List ℚ) : List ℚ :=
  (xs.zip xs.tail).map fun ab => ab.2 - ab.1

/-- `calculateWorkflow(racks)` (optimizer.js line 278, part_000 line 535):
regularity of the distinct placed X/Y coordinates.  `[...new Set(l)]`
followed by a numeric sort is embedded as `sortAsc l.dedup` (both produce
the ascending list of the distinct values). -/
def calculateWorkflow (racks : List Rack) : ℚ :=
  if racks.length < 2 then 1
  else
    let positions := racks.filterMap fun r => r.position
    if positions.length < 2 then 0.5
    else
      let xCoords := sortAsc (positions.map Pt.x).dedup
      let yCoords := sortAsc (positions.map Pt.y).dedup
      let regularityScore :=
        if 1 < xCoords.length ∧ 1 < yCoords.length then
          1 / (1 + calculateVariance (gaps xCoords) + calculateVariance (gaps yCoords))
        else 0
      min 1 (max 0 regularityScore)

/-- `calculateAccessibility(racks, layout)` (optimizer.js line 252, part_000
line 509): average, over `racks.length`, of the mean entrance/dock closeness
of each placed rack (unplaced racks contribute 0 but still count in the
denominator). -/
noncomputable def calculateAccessibility (racks : List Rack) (layout : Layout) : ℝ :=
  if racks = [] then 0
  else
    let maxDistance : ℝ :=
      Real.sqrt (((layout.width * layout.width + layout.height * layout.height : ℚ)) : ℝ)
    let total : ℝ := racks.foldl
      (fun acc rack =>
        match rack.position with
        | none => acc
        | some p =>
          let c := rackCenter rack p
          let entranceScore := 1 - calculateDistance c layout.entrance / maxDistance
          let dockScore := 1 - calculateDistance c layout.loadingDock / maxDistance
          acc + (entranceScore + dockScore) / 2) 0
    total / (racks.length : ℝ)

/-- `calculateAverageDistance(racks, point)` (optimizer.js line 339, part_000
line 596): 0 for an empty list, otherwise the mean of the rack-center
distances (0 for an unplaced rack). -/
noncomputable def calculateAverageDistance (racks : List Rack) (point : Pt) : ℝ :=
  if racks = [] then 0
  else
    (racks.map fun r =>
      match r.position with
      | none => (0 : ℝ)
      | some p => calculateDistance (rackCenter r p) point).sum / (racks.length : ℝ)

/-- The center-to-center aisle check shared by optimizer.js line 200 and
part_000 line 450, parameterised by the file's `this.minAisleWidth`.  The
JavaScript failure condition `Math.sqrt (distSq centers) < minRequired` is
embedded as the equivalent decidable test
`0 < minRequired ∧ distSq centers < minRequired ^ 2` (`sqrt_lt_rat_iff`). -/
def hasAdequateAislesCenter (minAisleWidth : ℚ) (rack : Rack) (position : Pt)
    (placedRacks : List Rack) : Bool :=
  placedRacks.all fun placedRack =>
    match placedRack.position with
    | none => true
    | some pp =>
      !(decide (0 < minRequiredDistance minAisleWidth rack placedRack) &&
        decide (distSq (rackCenter rack position) (rackCenter placedRack pp) <
          minRequiredDistance minAisleWidth rack placedRack ^ 2))

/-! ## Grid placement loop (optimizer.js lines 112–159, part_000 lines 292–339)

`placeRacks` scans, for each rack in order, the grid cells
`(i·step, j·step)` for `i < ⌊width/step⌋`, `j < ⌊height/step⌋` in `(i, j)`
lexicographic order, counting every tried cell as one attempt and stopping
after `maxAttempts = 100` attempts; the rack is placed at the first valid
cell (`rack.position = position; placedRacks.push(rack)`), and a rack with
no valid cell is simply not pushed onto `placedRacks`. -/

/-- The grid cells tried by `placeRacks`, in trial order. -/
def gridCells (layout : Layout) (stepX stepY : ℚ) : List Pt :=
  (List.range (Int.toNat ⌊layout.width / stepX⌋)).flatMap fun i =>
    (List.range (Int.toNat ⌊layout.height / stepY⌋)).map fun j =>
      ⟨(i : ℚ) * stepX, (j : ℚ) * stepY⟩

/-- One rack of the first-fit placement loop: scan the cells for the first
position that validates against the racks placed so far; on success
`rack.position = position; placedRacks.push(rack)`, on failure the rack is
not pushed. -/
def placeStep (valid : Rack → Pt → List Rack → Bool) (cells : List Pt)
    (placed : List Rack) (rack : Rack) : List Rack :=
  match cells.find? (fun p => valid rack p placed) with
  | some p => placed ++ [{ rack with position := some p }]
  | none => placed

/-- The first-fit placement fold shared by both `placeRacks` variants,
parameterised by the validity test and the (already attempt-capped) cell
list. -/
def placeLoop (valid : Rack → Pt → List Rack → Bool) (cells : List Pt)
    (racks : List Rack) : List Rack :=
  racks.foldl (placeStep valid cells) []

/-- `{racks, score: score.totalScore, metrics: {...metrics,
layoutEfficiency, accessibility, workflow}}`. -/
def buildSolution (placedRacks : List Rack) (score : ScoreResult)
    (metrics : MetricsResult) : Solution :=
  { racks := placedRacks
    score := score.totalScore
    metrics :=
      { totalRacks := metrics.totalRacks
        totalCapacity := metrics.totalCapacity
        avgDistanceToEntrance := metrics.avgDistanceToEntrance
        avgDistanceToDock := metrics.avgDistanceToDock
        areaUtilization := metrics.areaUtilization
        layoutEfficiency := score.layoutEfficiency
        accessibility := score.accessibility
        workflow := score.workflow } }

namespace Optimizer

/-- `this.rackSpecs.standard` of optimizer.js (metres). -/
def standardSpec : RackSpec := { width := 1.2, height := 2.4, capacity := 200, color := "#4CAF50" }

/-- `this.rackSpecs['high-density']` of optimizer.js. -/
def highDensitySpec : RackSpec := { width := 0.8, height := 3.0, capacity := 300, color := "#2196F3" }

/-- `this.rackSpecs.freezer` of optimizer.js. -/
def freezerSpec : RackSpec := { width := 1.5, height := 2.0, capacity := 150, color := "#00BCD4" }

/-- `this.rackSpecs.bulk` of optimizer.js. -/
def bulkSpec : RackSpec := { width := 2.0, height := 1.5, capacity := 100, color := "#FF9800" }

/-- `this.minAisleWidth` of optimizer.js. -/
def minAisleWidth : ℚ := 1.8

/-- `generateRacks(config)` of optimizer.js lines 65–110. -/
def generateRacks (config : Config) : List Rack :=
  genRacks standardSpec highDensitySpec freezerSpec bulkSpec config

/-- `hasAdequateAisles(rack, position, placedRacks)` of optimizer.js lines
200–219 (center-to-center distances, skipping unplaced racks). -/
def hasAdequateAisles (rack : Rack) (position : Pt) (placedRacks : List Rack) : Bool :=
  hasAdequateAislesCenter minAisleWidth rack position placedRacks

/-- `isValidPlacement(rack, position, layout, placedRacks)` of optimizer.js
lines 161–191: bounds, fixed obstacles, inter-rack overlap (skipping racks
with a null position), then the aisle check. -/
def isValidPlacement (rack : Rack) (position : Pt) (layout : Layout)
    (placedRacks : List Rack) : Bool :=
  if decide (position.x < 0) || decide (position.y < 0) ||
     decide (layout.width < position.x + rack.width) ||
     decide (layout.height < position.y + rack.height) then false
  else if layout.constraints.any fun c =>
      rectanglesOverlap position ⟨rack.width, rack.height⟩ c.position c.dimensions then false
  else if placedRacks.any fun p =>
      match p.position with
      | some pp => rectanglesOverlap position ⟨rack.width, rack.height⟩ pp ⟨p.width, p.height⟩
      | none => false then false
  else hasAdequateAisles rack position placedRacks

/-- `maxAttempts` of `placeRacks`. -/
def maxAttempts : ℕ := 100

/-- The rack-placement loop of `placeRacks` (optimizer.js lines 112–143),
with the 2.0-unit grid steps. -/
def placeRacksList (racks : List Rack) (layout : Layout) : List Rack :=
  placeLoop (fun rack p placed => isValidPlacement rack p layout placed)
    ((gridCells layout 2.0 2.0).take maxAttempts) racks

/-- The `0.2` literal of the total-score formula (optimizer.js line 241,
comment "Density placeholder"). -/
def densityPlaceholder : ℝ := 0.2

/-- `calculateScore(racks, layout)` of optimizer.js lines 225–250. -/
noncomputable def calculateScore (racks : List Rack) (layout : Layout) : ScoreResult :=
  if racks = [] then ⟨0, 0, 0, 0⟩
  else
    let totalRackArea : ℚ := (racks.map fun r => r.width * r.height).sum
    let layoutArea : ℚ := layout.width * layout.height
    let layoutEfficiency : ℝ := ((totalRackArea : ℚ) : ℝ) / ((layoutArea : ℚ) : ℝ)
    let accessibility : ℝ := calculateAccessibility racks layout
    let workflow : ℝ := ((calculateWorkflow racks : ℚ) : ℝ)
    let totalScore : ℝ :=
      layoutEfficiency * 30 + accessibility * 25 + workflow * 25 + densityPlaceholder * 20
    ⟨min 100 (max 0 totalScore), layoutEfficiency, accessibility, workflow⟩

/-- `calculateMetrics(racks, layout)` of optimizer.js lines 324–337.  Unlike
every other metric, `areaUtilization` divides without an emptiness guard, so
its division is modelled with JavaScript IEEE semantics (`jsDiv`). -/
noncomputable def calculateMetrics (racks : List Rack) (layout : Layout) : MetricsResult :=
  { totalRacks := racks.length
    totalCapacity := (racks.map fun r => r.capacity).sum
    avgDistanceToEntrance := calculateAverageDistance racks layout.entrance
    avgDistanceToDock := calculateAverageDistance racks layout.loadingDock
    areaUtilization :=
      jsDiv (racks.map fun r => r.width * r.height).sum (layout.width * layout.height) }

/-- `placeRacks(racks, layout)` of optimizer.js lines 112–159: the placement
loop, then scores and metrics over the placed racks. -/
noncomputable def placeRacks (racks : List Rack) (layout : Layout) : Solution :=
  let placedRacks := placeRacksList racks layout
  buildSolution placedRacks (calculateScore placedRacks layout)
    (calculateMetrics placedRacks layout)

/-- A run of `placeRacks` under an ambient `Math.random` stream: the
function performs no random draw, so a run is just its pure value. -/
noncomputable def placeRacksRun (racks : List Rack) (layout : Layout) (_rng : List ℚ) : Solution :=
  placeRacks racks layout

end Optimizer

namespace Enhanced

/-- `this.rackSpecs.standard` of part_000 (feet). -/
def standardSpec : RackSpec :=
  { width := 4, height := 8, capacity := 200, color := "#4CAF50", name := "Standard" }

/-- `this.rackSpecs['high-density']` of part_000. -/
def highDensitySpec : RackSpec :=
  { width := 2.5, height := 10, capacity := 300, color := "#2196F3", name := "High-Density" }

/-- `this.rackSpecs.freezer` of part_000. -/
def freezerSpec : RackSpec :=
  { width := 5, height := 6.5, capacity := 150, color := "#00BCD4", name := "Freezer" }

/-- `this.rackSpecs.bulk` of part_000. -/
def bulkSpec : RackSpec :=
  { width := 6.5, height := 5, capacity := 100, color := "#FF9800", name := "Bulk Storage" }

/-- `this.minAisleWidth` of part_000. -/
def minAisleWidth : ℚ := 2.5

/-- Genetic-algorithm parameters of part_000's constructor. -/
def populationSize : ℕ := 50

/-- `this.generations` of part_000. -/
def generations : ℕ := 100

/-- `this.mutationRate` of part_000. -/
def mutationRate : ℚ := 0.1

/-- `this.eliteCount` of part_000. -/
def eliteCount : ℕ := 5

/-- `generateRacks(config)` of part_000 lines 341–386. -/
def generateRacks (config : Config) : List Rack :=
  genRacks standardSpec highDensitySpec freezerSpec bulkSpec config

/-- `isPointInStore(x, y, storeShape)` of part_000 lines 43–51: inclusive
containment in at least one section. -/
def isPointInStore (x y : ℚ) (storeShape : List StoreSection) : Bool :=
  storeShape.any fun s =>
    decide (s.x ≤ x) && decide (x ≤ s.x + s.width) &&
    decide (s.y ≤ y) && decide (y ≤ s.y + s.height)

/-- `isRackInStoreShape(rack, position, storeShape)` of part_000 lines
425–441: all four footprint corners must be inside the store shape. -/
def isRackInStoreShape (rack : Rack) (position : Pt) (storeShape : List StoreSection) : Bool :=
  [⟨position.x, position.y⟩, ⟨position.x + rack.width, position.y⟩,
   ⟨position.x, position.y + rack.height⟩,
   (⟨position.x + rack.width, position.y + rack.height⟩ : Pt)].all
    fun corner => isPointInStore corner.x corner.y storeShape

/-- `hasAdequateAisles(rack, position, placedRacks)` of part_000 lines
450–469 (center-to-center distances, skipping unplaced racks). -/
def hasAdequateAisles (rack : Rack) (position : Pt) (placedRacks : List Rack) : Bool :=
  hasAdequateAislesCenter minAisleWidth rack position placedRacks

/-- `isValidPlacement(rack, position, layout, placedRacks)` of part_000
lines 388–423: bounds, store-shape containment (when `layout.storeShape` is
present), fixed obstacles, inter-rack overlap (skipping racks with a null
position), then the aisle check. -/
def isValidPlacement (rack : Rack) (position : Pt) (layout : Layout)
    (placedRacks : List Rack) : Bool :=
  if decide (position.x < 0) || decide (position.y < 0) ||
     decide (layout.width < position.x + rack.width) ||
     decide (layout.height < position.y + rack.height) then false
  else if (match layout.storeShape with
      | some shape => !isRackInStoreShape rack position shape
      | none => false) then false
  else if layout.constraints.any fun c =>
      rectanglesOverlap position ⟨rack.width, rack.height⟩ c.position c.dimensions then false
  else if placedRacks.any fun p =>
      match p.position with
      | some pp => rectanglesOverlap position ⟨rack.width, rack.height⟩ pp ⟨p.width, p.height⟩
      | none => false then false
  else hasAdequateAisles rack position placedRacks

/-- `maxAttempts` of part_000's `placeRacks`. -/
def maxAttempts : ℕ := 100

/-- The rack-placement loop of `placeRacks` (part_000 lines 292–323), with
the 4.0-foot grid steps. -/
def placeRacksList (racks : List Rack) (layout : Layout) : List Rack :=
  placeLoop (fun rack p placed => isValidPlacement rack p layout placed)
    ((gridCells layout 4.0 4.0).take maxAttempts) racks

/-- `calculateLayoutArea(layout)` of part_000 lines 502–507: sum of the
section areas when a store shape is present, else `width * height`. -/
def calculateLayoutArea (layout : Layout) : ℚ :=
  match layout.storeShape with
  | some shape => (shape.map fun s => s.width * s.height).sum
  | none => layout.width * layout.height

/-- The `0.3` literal of the total-score formula (part_000 line 491,
comment "Density placeholder"). -/
def densityPlaceholder : ℝ := 0.3

/-- `calculateScore(racks, layout)` of part_000 lines 475–500. -/
noncomputable def calculateScore (racks : List Rack) (layout : Layout) : ScoreResult :=
  if racks = [] then ⟨0, 0, 0, 0⟩
  else
    let totalRackArea : ℚ := (racks.map fun r => r.width * r.height).sum
    let layoutArea : ℚ := calculateLayoutArea layout
    let layoutEfficiency : ℝ := ((totalRackArea : ℚ) : ℝ) / ((layoutArea : ℚ) : ℝ)
    let accessibility : ℝ := calculateAccessibility racks layout
    let workflow : ℝ := ((calculateWorkflow racks : ℚ) : ℝ)
    let totalScore : ℝ :=
      layoutEfficiency * 30 + accessibility * 25 + workflow * 25 + densityPlaceholder * 20
    ⟨min 100 (max 0 totalScore), layoutEfficiency, accessibility, workflow⟩

/-- `calculateMetrics(racks, layout)` of part_000 lines 581–594; as in
optimizer.js, the unguarded `areaUtilization` division uses `jsDiv`. -/
noncomputable def calculateMetrics (racks : List Rack) (layout : Layout) : MetricsResult :=
  { totalRacks := racks.length
    totalCapacity := (racks.map fun r => r.capacity).sum
    avgDistanceToEntrance := calculateAverageDistance racks layout.entrance
    avgDistanceToDock := calculateAverageDistance racks layout.loadingDock
    areaUtilization :=
      jsDiv (racks.map fun r => r.width * r.height).sum (calculateLayoutArea layout) }

/-- `placeRacks(racks, layout)` of part_000 lines 292–339. -/
noncomputable def placeRacks (racks : List Rack) (layout : Layout) : Solution :=
  let placedRacks := placeRacksList racks layout
  buildSolution placedRacks (calculateScore placedRacks layout)
    (calculateMetrics placedRacks layout)

/-- `gridBasedOptimization(racks, layout)` of part_000 lines 287–290: just
`placeRacks`. -/
noncomputable def gridBasedOptimization (racks : List Rack) (layout : Layout) : Solution :=
  placeRacks racks layout

/-- A run of `gridBasedOptimization` under an ambient `Math.random` stream:
the grid path performs no random draw, so a run is its pure value. -/
noncomputable def gridBasedOptimizationRun (racks : List Rack) (layout : Layout)
    (_rng : List ℚ) : Solution :=
  gridBasedOptimization racks layout

end Enhanced

/-! ## The `Math.random` stream

Randomised code is embedded in state-passing style over a stream of draws.
`Math.random()` promises a number in `[0, 1)`; the model does not bake that
in (theorems over all streams are stronger), and a function drawing from an
exhausted stream receives `0`.  Where JavaScript would index out of range on
adversarial draws (`population[idx]` giving `undefined`), the model
totalises with an explicit default that the algorithm never reaches with
in-range draws and its fixed, non-empty population. -/

/-- A stream of `Math.random()` results. -/
abbrev RandSeq := List ℚ

/-- Draw the next `Math.random()` value (0 once the stream is exhausted). -/
def randNext : RandSeq → ℚ × RandSeq
  | [] => (0, [])
  | q :: rest => (q, rest)

/-- Placeholder rack for the out-of-range `parent[i]` accesses that the
algorithm never performs (see the module comment above). -/
def defaultRack : Rack :=
  { id := "", type := "", width := 0, height := 0, capacity := 0, position := none }

/-- Placeholder solution (same role as `defaultRack`). -/
def defaultSolution : Solution :=
  { racks := []
    score := 0
    metrics := { totalRacks := 0, totalCapacity := 0, avgDistanceToEntrance := 0,
                 avgDistanceToDock := 0, areaUtilization := JsNum.num 0,
                 layoutEfficiency := 0, accessibility := 0, workflow := 0 } }

/-- One `{individual, fitness, solution}` entry of `evaluatedPopulation`. -/
structure Evaluated where
  individual : List Rack
  fitness : ℝ
  solution : Solution

/-- Placeholder `Evaluated` entry (same role as `defaultRack`). -/
def defaultEvaluated : Evaluated :=
  { individual := [], fitness := 0, solution := defaultSolution }

namespace Enhanced

/-- The `while (!placed && attempts < 100)` body of `createRandomIndividual`
(part_000 lines 184–200): each attempt draws an x and a y value and keeps
the position if it validates against the racks already in the individual. -/
def tryPlaceRack (rack : Rack) (layout : Layout) (individual : List Rack) :
    ℕ → RandSeq → Option Pt × RandSeq
  | 0, rng => (none, rng)
  | n + 1, rng =>
    let d1 := randNext rng
    let d2 := randNext d1.2
    let position : Pt :=
      ⟨d1.1 * (layout.width - rack.width), d2.1 * (layout.height - rack.height)⟩
    if isValidPlacement rack position layout individual then (some position, d2.2)
    else tryPlaceRack rack layout individual n d2.2

/-- `createRandomIndividual(racks, layout)` of part_000 lines 180–212: per
rack, up to 100 random placement attempts; on exhaustion the rack is pushed
with a null position. -/
def createRandomIndividual (racks : List Rack) (layout : Layout) (rng : RandSeq) :
    List Rack × RandSeq :=
  racks.foldl
    (fun acc rack =>
      match tryPlaceRack rack layout acc.1 maxAttempts acc.2 with
      | (some position, rng') => (acc.1 ++ [{ rack with position := some position }], rng')
      | (none, rng') => (acc.1 ++ [{ rack with position := none }], rng'))
    ([], rng)

/-- The population-building loop of part_000 lines 169–178 (the constructor
loop of `initializePopulation`), by remaining count. -/
def initPopAux (racks : List Rack) (layout : Layout) :
    ℕ → RandSeq → List (List Rack) × RandSeq
  | 0, rng => ([], rng)
  | n + 1, rng =>
    let (individual, rng') := createRandomIndividual racks layout rng
    let (rest, rng'') := initPopAux racks layout n rng'
    (individual :: rest, rng'')

/-- `initializePopulation(racks, layout)` of part_000 lines 169–178:
`populationSize` independent random individuals. -/
def initPopulation (racks : List Rack) (layout : Layout) (rng : RandSeq) :
    List (List Rack) × RandSeq :=
  initPopAux racks layout populationSize rng

/-- `evaluateIndividual(individual, layout)` of part_000 lines 269–284: the
solution over the individual's placed-rack subset (note that the returned
`racks` are only the placed ones). -/
noncomputable def evaluateIndividual (individual : List Rack) (layout : Layout) : Solution :=
  let placedRacks := individual.filter fun r => r.position.isSome
  buildSolution placedRacks (calculateScore placedRacks layout)
    (calculateMetrics placedRacks layout)

/-- One iteration of the `population.map` of part_000 lines 129–136: it
pushes the `{individual, fitness, solution}` entry and updates the running
`bestSolution`/`bestScore` when `solution.score > bestScore`. -/
noncomputable def evalStep (layout : Layout) (acc : List Evaluated × Option Solution × ℝ)
    (individual : List Rack) : List Evaluated × Option Solution × ℝ :=
  let solution := evaluateIndividual individual layout
  let best' := if solution.score > acc.2.2 then some solution else acc.2.1
  let bestScore' := if solution.score > acc.2.2 then solution.score else acc.2.2
  (acc.1 ++ [{ individual := individual, fitness := solution.score, solution := solution }],
   best', bestScore')

/-- The `population.map` of part_000 lines 129–136, which both builds
`evaluatedPopulation` and updates the running `bestSolution`/`bestScore`. -/
noncomputable def evaluatePopulation (layout : Layout) (population : List (List Rack))
    (best : Option Solution) (bestScore : ℝ) :
    List Evaluated × Option Solution × ℝ :=
  population.foldl (evalStep layout) ([], best, bestScore)

/-- `evaluatedPopulation.sort((a, b) => b.fitness - a.fitness)` (part_000
line 139): a stable descending sort by fitness. -/
noncomputable def sortByFitnessDesc (l : List Evaluated) : List Evaluated :=
  l.mergeSort fun a b => decide (b.fitness ≤ a.fitness)

/-- `tournamentSelection(population)` of part_000 lines 214–224, with the
default `tournamentSize = 3`: three uniform draws with replacement, highest
fitness wins. -/
noncomputable def tournamentSelection (population : List Evaluated) (rng : RandSeq) :
    List Rack × RandSeq :=
  let d1 := randNext rng
  let d2 := randNext d1.2
  let d3 := randNext d2.2
  let pick := fun (r : ℚ) => population.getD (Int.toNat ⌊r * population.length⌋) defaultEvaluated
  let tournament := [pick d1.1, pick d2.1, pick d3.1]
  (((sortByFitnessDesc tournament).headD defaultEvaluated).individual, d3.2)

/-- `crossover(parent1, parent2)` of part_000 lines 226–239: one random
crossover index into `parent1`; genes before it are copied from `parent1`,
the rest from `parent2`. -/
def crossover (parent1 parent2 : List Rack) (rng : RandSeq) : List Rack × RandSeq :=
  let d := randNext rng
  let crossoverPoint := Int.toNat ⌊d.1 * parent1.length⌋
  ((List.range parent1.length).map fun i =>
      if i < crossoverPoint then parent1.getD i defaultRack else parent2.getD i defaultRack,
   d.2)

/-- One index `i` of the mutation loop of part_000 lines 244–264: a mutation
draw; a rack that is selected (`draw < mutationRate`) and has a position
gets a clamped random offset of up to ±2.5 on each axis
(`maxAdjustment = 5`), kept only if it re-validates against the other
currently-placed racks of the (partially mutated) list. -/
def mutateStep (layout : Layout) (acc : List Rack × RandSeq) (i : ℕ) :
    List Rack × RandSeq :=
  let mutated := acc.1
  let d := randNext acc.2
  let rack := mutated.getD i defaultRack
  if decide (d.1 < mutationRate) && rack.position.isSome then
    let d1 := randNext d.2
    let d2 := randNext d1.2
    let pos := rack.position.getD ⟨0, 0⟩
    let maxAdjustment : ℚ := 5
    let deltaX := (d1.1 - 0.5) * maxAdjustment
    let deltaY := (d2.1 - 0.5) * maxAdjustment
    let newX := max 0 (min (layout.width - rack.width) (pos.x + deltaX))
    let newY := max 0 (min (layout.height - rack.height) (pos.y + deltaY))
    let newPosition : Pt := ⟨newX, newY⟩
    let otherRacks :=
      (mutated.enum.filter fun jq => decide (jq.1 ≠ i) && jq.2.position.isSome).map
        Prod.snd
    if isValidPlacement rack newPosition layout otherRacks then
      (mutated.set i { rack with position := some newPosition }, d2.2)
    else (mutated, d2.2)
  else (mutated, d.2)

/-- `mutate(individual, layout)` of part_000 lines 241–267: `mutateStep`
over every index (the initial `individual.map(rack => ({...rack}))` copy is
the identity in this functional model). -/
def mutate (individual : List Rack) (layout : Layout) (rng : RandSeq) :
    List Rack × RandSeq :=
  (List.range individual.length).foldl (mutateStep layout) (individual, rng)

/-- The `while (nextGeneration.length < this.populationSize)` reproduction
loop of part_000 lines 150–156, by remaining offspring count. -/
noncomputable def makeOffspring (layout : Layout) (sorted : List Evaluated) :
    ℕ → RandSeq → List (List Rack) × RandSeq
  | 0, rng => ([], rng)
  | n + 1, rng =>
    let t1 := tournamentSelection sorted rng
    let t2 := tournamentSelection sorted t1.2
    let offspring := crossover t1.1 t2.1 t2.2
    let mutatedOffspring := mutate offspring.1 layout offspring.2
    let rest := makeOffspring layout sorted n mutatedOffspring.2
    (mutatedOffspring.1 :: rest.1, rest.2)

/-- The generation loop of `geneticAlgorithmOptimization` (part_000 lines
127–163), by remaining generation count; carries the population, the global
best solution and its score, and the random stream. -/
noncomputable def gaLoop (layout : Layout) :
    ℕ → List (List Rack) → Option Solution → ℝ → RandSeq →
    Option Solution × ℝ × List (List Rack) × RandSeq
  | 0, population, best, bestScore, rng => (best, bestScore, population, rng)
  | n + 1, population, best, bestScore, rng =>
    let E := evaluatePopulation layout population best bestScore
    let sorted := sortByFitnessDesc E.1
    let elites := (sorted.take eliteCount).map Evaluated.individual
    let offspring := makeOffspring layout sorted (populationSize - elites.length) rng
    gaLoop layout n (elites ++ offspring.1) E.2.1 E.2.2 offspring.2

/-- `geneticAlgorithmOptimization(racks, layout)` of part_000 lines 119–167:
starts from `bestSolution = null`, `bestScore = 0`, runs the fixed number of
generations, and returns `bestSolution` (still `null` when no evaluated
candidate ever scored above 0). -/
noncomputable def geneticAlgorithmOptimization (racks : List Rack) (layout : Layout)
    (rng : RandSeq) : Option Solution :=
  let P := initPopulation racks layout rng
  (gaLoop layout generations P.1 none 0 P.2).1

end Enhanced

namespace ImageOpt

/-- `this.rackSpecs.standard` of image-optimizer.js (same values as
part_000). -/
def standardSpec : RackSpec :=
  { width := 4, height := 8, capacity := 200, color := "#4CAF50", name := "Standard" }

/-- `this.rackSpecs['high-density']` of image-optimizer.js. -/
def highDensitySpec : RackSpec :=
  { width := 2.5, height := 10, capacity := 300, color := "#2196F3", name := "High-Density" }

/-- `this.rackSpecs.freezer` of image-optimizer.js. -/
def freezerSpec : RackSpec :=
  { width := 5, height := 6.5, capacity := 150, color := "#00BCD4", name := "Freezer" }

/-- `this.rackSpecs.bulk` of image-optimizer.js. -/
def bulkSpec : RackSpec :=
  { width := 6.5, height := 5, capacity := 100, color := "#FF9800", name := "Bulk Storage" }

/-- `this.minAisleWidth` of image-optimizer.js. -/
def minAisleWidth : ℚ := 2.5

/-- `generateRacks(config)` of image-optimizer.js lines 340–363 (a loop over
a `rackTypes` array, with the same shared `id` counter semantics as the
other two files). -/
def generateRacks (config : Config) : List Rack :=
  genRacks standardSpec highDensitySpec freezerSpec bulkSpec config

/-- `hasAdequateAisles(rack, position, otherRacks)` of image-optimizer.js
lines 580–597.  Unlike the other two files, the distance here is measured
between `position` and `other.position` — the racks' top-left corners, not
their footprint centers. -/
def hasAdequateAisles (rack : Rack) (position : Pt) (otherRacks : List Rack) : Bool :=
  otherRacks.all fun other =>
    match other.position with
    | none => true
    | some pp =>
      !(decide (0 < minRequiredDistance minAisleWidth rack other) &&
        decide (distSq position pp < minRequiredDistance minAisleWidth rack other ^ 2))

/-- `isValidPlacement(rack, position, layout, otherRacks)` of
image-optimizer.js lines 541–571. -/
def isValidPlacement (rack : Rack) (position : Pt) (layout : Layout)
    (otherRacks : List Rack) : Bool :=
  if decide (position.x < 0) || decide (position.y < 0) ||
     decide (layout.width < position.x + rack.width) ||
     decide (layout.height < position.y + rack.height) then false
  else if layout.constraints.any fun c =>
      rectanglesOverlap position ⟨rack.width, rack.height⟩ c.position c.dimensions then false
  else if otherRacks.any fun p =>
      match p.position with
      | some pp => rectanglesOverlap position ⟨rack.width, rack.height⟩ pp ⟨p.width, p.height⟩
      | none => false then false
  else hasAdequateAisles rack position otherRacks

/-- `gridSize` of `gridBasedOptimization`. -/
def gridSize : ℚ := 4

/-- The `while (!placed && attempts < maxAttempts)` body of
image-optimizer.js lines 377–389: each attempt draws a random grid-aligned
cell `⌊rand · (extent − rackExtent) / gridSize⌋ · gridSize` per axis. -/
def tryPlaceGrid (rack : Rack) (layout : Layout) (placedRacks : List Rack) :
    ℕ → RandSeq → Option Pt × RandSeq
  | 0, rng => (none, rng)
  | n + 1, rng =>
    let d1 := randNext rng
    let d2 := randNext d1.2
    let x : ℚ := ((⌊d1.1 * (layout.width - rack.width) / gridSize⌋ : ℤ) : ℚ) * gridSize
    let y : ℚ := ((⌊d2.1 * (layout.height - rack.height) / gridSize⌋ : ℤ) : ℚ) * gridSize
    let position : Pt := ⟨x, y⟩
    if isValidPlacement rack position layout placedRacks then (some position, d2.2)
    else tryPlaceGrid rack layout placedRacks n d2.2

/-- The placement loop of `gridBasedOptimization` (image-optimizer.js lines
369–390): up to 100 random grid cells per rack; unplaced racks are not
pushed. -/
def gridRacksLoop (racks : List Rack) (layout : Layout) (rng : RandSeq) :
    List Rack × RandSeq :=
  racks.foldl
    (fun acc rack =>
      match tryPlaceGrid rack layout acc.1 100 acc.2 with
      | (some position, rng') => (acc.1 ++ [{ rack with position := some position }], rng')
      | (none, rng') => (acc.1, rng'))
    ([], rng)

/-- `Math.round`, which rounds half toward positive infinity. -/
def jsRound (q : ℚ) : ℤ := ⌊q + 1 / 2⌋

/-- `calculateWorkflow(racks)` of image-optimizer.js lines 654–667: the
simplified regularity check over 4-unit-rounded distinct coordinates. -/
def calculateWorkflow (racks : List Rack) : ℚ :=
  if racks.length < 2 then 1
  else
    let positions := racks.filterMap fun r => r.position
    if positions.length < 2 then 0.5
    else
      let xCoords := sortAsc (positions.map fun p => ((jsRound (p.x / 4) : ℤ) : ℚ) * 4).dedup
      let yCoords := sortAsc (positions.map fun p => ((jsRound (p.y / 4) : ℤ) : ℚ) * 4).dedup
      if xCoords.length < 2 ∨ yCoords.length < 2 then 0.5 else 0.8

/-- `calculateAccessibility(racks, layout)` of image-optimizer.js lines
626–652: as the shared version but measured from `rack.position` (the
top-left corner) rather than the footprint center. -/
noncomputable def calculateAccessibility (racks : List Rack) (layout : Layout) : ℝ :=
  if racks = [] then 0
  else
    let maxDistance : ℝ :=
      Real.sqrt (((layout.width * layout.width + layout.height * layout.height : ℚ)) : ℝ)
    let total : ℝ := racks.foldl
      (fun acc rack =>
        match rack.position with
        | none => acc
        | some p =>
          let entranceScore := 1 - calculateDistance p layout.entrance / maxDistance
          let dockScore := 1 - calculateDistance p layout.loadingDock / maxDistance
          acc + (entranceScore + dockScore) / 2) 0
    total / (racks.length : ℝ)

/-- The `0.3` literal of the total-score formula (image-optimizer.js line
615). -/
def densityPlaceholder : ℝ := 0.3

/-- `calculateScore(racks, layout)` of image-optimizer.js lines 599–624. -/
noncomputable def calculateScore (racks : List Rack) (layout : Layout) : ScoreResult :=
  if racks = [] then ⟨0, 0, 0, 0⟩
  else
    let totalRackArea : ℚ := (racks.map fun r => r.width * r.height).sum
    let layoutArea : ℚ := layout.width * layout.height
    let layoutEfficiency : ℝ := ((totalRackArea : ℚ) : ℝ) / ((layoutArea : ℚ) : ℝ)
    let accessibility : ℝ := calculateAccessibility racks layout
    let workflow : ℝ := ((calculateWorkflow racks : ℚ) : ℝ)
    let totalScore : ℝ :=
      layoutEfficiency * 30 + accessibility * 25 + workflow * 25 + densityPlaceholder * 20
    ⟨min 100 (max 0 totalScore), layoutEfficiency, accessibility, workflow⟩

/-- `calculateAverageDistance(racks, point)` of image-optimizer.js lines
684–696 (corner-based distances). -/
noncomputable def calculateAverageDistance (racks : List Rack) (point : Pt) : ℝ :=
  if racks = [] then 0
  else
    (racks.map fun r =>
      match r.position with
      | none => (0 : ℝ)
      | some p => calculateDistance p point).sum / (racks.length : ℝ)

/-- `calculateMetrics(racks, layout)` of image-optimizer.js lines 669–682. -/
noncomputable def calculateMetrics (racks : List Rack) (layout : Layout) : MetricsResult :=
  { totalRacks := racks.length
    totalCapacity := (racks.map fun r => r.capacity).sum
    avgDistanceToEntrance := calculateAverageDistance racks layout.entrance
    avgDistanceToDock := calculateAverageDistance racks layout.loadingDock
    areaUtilization :=
      jsDiv (racks.map fun r => r.width * r.height).sum (layout.width * layout.height) }

/-- `gridBasedOptimization(racks, layout)` of image-optimizer.js lines
366–405: the randomised placement loop, then scores and metrics; the final
random-stream state is returned alongside the solution. -/
noncomputable def gridBasedOptimization (racks : List Rack) (layout : Layout)
    (rng : RandSeq) : Solution × RandSeq :=
  let placed := gridRacksLoop racks layout rng
  (buildSolution placed.1 (calculateScore placed.1 layout)
    (calculateMetrics placed.1 layout), placed.2)

end ImageOpt

/-! ## Predicates used by the statements -/

/-- A rack with its position erased (used to compare racks modulo
placement). -/
def stripPosition (r : Rack) : Rack :=
  { r with position := none }

/-- Two racks agree on every generation-time field (`id`, `type`, `width`,
`height`, `capacity`). -/
def keepsIdentity (a b : Rack) : Prop :=
  a.id = b.id ∧ a.type = b.type ∧ a.width = b.width ∧ a.height = b.height ∧
    a.capacity = b.capacity

/-- Two placed racks neither overlap nor violate the aisle-clearance
inequality of §4.3 item 5: their footprints do not overlap and their
center-to-center Euclidean distance is at least
`minAisleWidth + (a.width + a.height + b.width + b.height) / 4`. -/
def racksSeparated (minAisleWidth : ℚ) (a b : Rack) : Prop :=
  ∀ pa pb, a.position = some pa → b.position = some pb →
    rectanglesOverlap pa ⟨a.width, a.height⟩ pb ⟨b.width, b.height⟩ = false ∧
    ((minRequiredDistance minAisleWidth a b : ℚ) : ℝ) ≤
      calculateDistance (rackCenter a pa) (rackCenter b pb)

/-- A placed rack overlaps no fixed obstacle of the layout. -/
def avoidsObstacles (layout : Layout) (r : Rack) : Prop :=
  ∀ p, r.position = some p → ∀ c ∈ layout.constraints,
    rectanglesOverlap p ⟨r.width, r.height⟩ c.position c.dimensions = false

/-! ## Concrete fixtures for witnesses and counterexamples -/

/-- A 40 × 30 single-rectangle layout with no obstacles (optimizer.js-style,
no `storeShape` field). -/
def layoutPlain : Layout :=
  { width := 40, height := 30, constraints := [], entrance := ⟨38, 2⟩,
    loadingDock := ⟨2, 26⟩ }

/-- A 2 × 4 layout in which only one optimizer.js standard rack fits. -/
def layoutTiny : Layout :=
  { width := 2, height := 4, constraints := [], entrance := ⟨19, 1⟩,
    loadingDock := ⟨1, 29⟩ }

/-- A degenerate layout of width 0 (usable area 0). -/
def layoutDegenerate : Layout :=
  { width := 0, height := 30, constraints := [], entrance := ⟨19, 1⟩,
    loadingDock := ⟨1, 29⟩ }

/-- An 8 × 8 part_000-style layout: one full-rectangle store section and an
office obstacle at (4, 0) that only touches the first grid cell's rack. -/
def layoutShaped : Layout :=
  { width := 8, height := 8, storeShape := some [⟨0, 0, 8, 8⟩],
    constraints := [{ name := "office", position := ⟨4, 0⟩, dimensions := ⟨4, 4⟩,
                      type := "office", color := "#9C27B0" }],
    entrance := ⟨7, 1⟩, loadingDock := ⟨1, 7⟩ }

/-- One standard image/part_000 rack (4 × 8). -/
def rackStd : Rack := mkRack "standard" ImageOpt.standardSpec 1

/-- One bulk image/part_000 rack (6.5 × 5) placed at `(8, 0)`. -/
def rackBulkAt8 : Rack :=
  { mkRack "bulk" ImageOpt.bulkSpec 2 with position := some ⟨8, 0⟩ }

/-- The part_000 standard rack placed at the origin (the cell the grid
strategy picks first in `layoutShaped`). -/
def rackStdPlaced : Rack :=
  { mkRack "standard" Enhanced.standardSpec 1 with position := some ⟨0, 0⟩ }

/-- A two-element individual for the mutation frame witness: one placed and
one unplaced part_000 rack. -/
def individualW : List Rack :=
  [{ mkRack "standard" Enhanced.standardSpec 1 with position := some ⟨4, 4⟩ },
   mkRack "standard" Enhanced.standardSpec 2]

/-! # Theorems -/

/-! ## Geometry facts -/

/-- Bridge between the JavaScript comparison `Math.sqrt d < m` and its
decidable rational embedding `0 < m ∧ d < m ^ 2`. -/
theorem sqrt_lt_rat_iff (d m : ℚ) :
    Real.sqrt ((d : ℚ) : ℝ) < ((m : ℚ) : ℝ) ↔ (0 < m ∧ d < m ^ 2) := by
  constructor
  · intro h
    have hm : (0 : ℝ) < (m : ℝ) := lt_of_le_of_lt (Real.sqrt_nonneg _) h
    have hmq : (0 : ℚ) < m := by exact_mod_cast hm
    refine ⟨hmq, ?_⟩
    have := (Real.sqrt_lt' hm).mp h
    exact_mod_cast this
  · rintro ⟨hm, hd⟩
    have hm' : (0 : ℝ) < (m : ℝ) := by exact_mod_cast hm
    rw [Real.sqrt_lt' hm']
    exact_mod_cast hd

/-- The negated form: `Math.sqrt d ≥ m` holds iff the decidable violation
test fails. -/
theorem le_sqrt_rat_iff (d m : ℚ) :
    ((m : ℚ) : ℝ) ≤ Real.sqrt ((d : ℚ) : ℝ) ↔ ¬(0 < m ∧ d < m ^ 2) := by
  rw [← not_lt, sqrt_lt_rat_iff]

theorem rectanglesOverlap_symm (p1 : Pt) (d1 : Size) (p2 : Pt) (d2 : Size) :
    rectanglesOverlap p1 d1 p2 d2 = rectanglesOverlap p2 d2 p1 d1 := by
  simp only [rectanglesOverlap]
  by_cases h1 : p1.x + d1.width ≤ p2.x <;>
    by_cases h2 : p2.x + d2.width ≤ p1.x <;>
      by_cases h3 : p1.y + d1.height ≤ p2.y <;>
        by_cases h4 : p2.y + d2.height ≤ p1.y <;>
          simp [h1, h2, h3, h4]

theorem distSq_symm (p q : Pt) : distSq p q = distSq q p := by
  simp only [distSq]; ring

theorem minRequiredDistance_symm (m : ℚ) (a b : Rack) :
    minRequiredDistance m a b = minRequiredDistance m b a := by
  simp only [minRequiredDistance]; ring

theorem calculateDistance_symm (p q : Pt) :
    calculateDistance p q = calculateDistance q p := by
  simp only [calculateDistance, distSq_symm]

/-! ## Null-position racks impose no constraint (C10) -/

theorem any_posGuard_filter (L : List Rack) (g : Rack → Pt → Bool) :
    ((L.filter fun r => r.position.isSome).any fun p =>
        match p.position with
        | some pp => g p pp
        | none => false) =
      L.any fun p =>
        match p.position with
        | some pp => g p pp
        | none => false := by
  rw [List.any_filter]
  congr 1
  funext p
  cases h : p.position <;> simp [h]

theorem all_posGuard_filter (L : List Rack) (g : Rack → Pt → Bool) :
    ((L.filter fun r => r.position.isSome).all fun p =>
        match p.position with
        | none => true
        | some pp => g p pp) =
      L.all fun p =>
        match p.position with
        | none => true
        | some pp => g p pp := by
  rw [List.all_filter]
  congr 1
  funext p
  cases h : p.position <;> simp [h]

/-- C10: racks with an absent position impose no constraint on validation:
`isValidPlacement` gives the same verdict over a rack list and over its
sublist of racks with a present position (both the inter-rack overlap check
and the aisle check skip entries whose position is absent). -/
theorem isValidPlacement_ignores_unplaced (rack : Rack) (position : Pt) (layout : Layout)
    (L : List Rack) :
    Optimizer.isValidPlacement rack position layout L =
      Optimizer.isValidPlacement rack position layout
        (L.filter fun r => r.position.isSome) := by
  simp only [Optimizer.isValidPlacement, Optimizer.hasAdequateAisles, hasAdequateAislesCenter,
    any_posGuard_filter, all_posGuard_filter]

/-! ## The aisle check is center-to-center with strict-inequality failure (C4) -/

theorem hasAdequateAislesCenter_eq_false_iff (m : ℚ) (rack : Rack) (position : Pt)
    (placedRacks : List Rack) :
    (hasAdequateAislesCenter m rack position placedRacks = false ↔
      ∃ other ∈ placedRacks, ∃ pp, other.position = some pp ∧
        calculateDistance (rackCenter rack position) (rackCenter other pp) <
          ((minRequiredDistance m rack other : ℚ) : ℝ)) := by
  rw [hasAdequateAislesCenter, List.all_eq_false]
  constructor
  · rintro ⟨other, hmem, hother⟩
    refine ⟨other, hmem, ?_⟩
    rcases h : other.position with _ | pp
    · rw [h] at hother; simp at hother
    · rw [h] at hother
      simp only [Bool.not_eq_true', Bool.not_eq_false, Bool.and_eq_true, decide_eq_true_eq]
        at hother
      exact ⟨pp, rfl, by rw [calculateDistance, sqrt_lt_rat_iff]; exact hother⟩
  · rintro ⟨other, hmem, pp, hpp, hlt⟩
    refine ⟨other, hmem, ?_⟩
    rw [hpp]
    rw [calculateDistance, sqrt_lt_rat_iff] at hlt
    simp only [Bool.not_eq_true', Bool.not_eq_false, Bool.and_eq_true, decide_eq_true_eq]
    exact hlt

/-- C4 (amended): in optimizer.js and part_000, `hasAdequateAisles` returns
`false` iff some placed rack (with a present position) has
center-to-center distance to the candidate strictly below
`minAisleWidth + (rackA.width + rackA.height + rackB.width + rackB.height) / 4`;
equality passes.  (The image-optimizer variant measures the distance between
the racks' top-left positions instead — see the counterexample.) -/
theorem hasAdequateAisles_center_iff (rack : Rack) (position : Pt)
    (placedRacks : List Rack) :
    (Enhanced.hasAdequateAisles rack position placedRacks = false ↔
      ∃ other ∈ placedRacks, ∃ pp, other.position = some pp ∧
        calculateDistance (rackCenter rack position) (rackCenter other pp) <
          ((minRequiredDistance Enhanced.minAisleWidth rack other : ℚ) : ℝ)) ∧
    (Optimizer.hasAdequateAisles rack position placedRacks = false ↔
      ∃ other ∈ placedRacks, ∃ pp, other.position = some pp ∧
        calculateDistance (rackCenter rack position) (rackCenter other pp) <
          ((minRequiredDistance Optimizer.minAisleWidth rack other : ℚ) : ℝ)) :=
  ⟨hasAdequateAislesCenter_eq_false_iff _ _ _ _,
   hasAdequateAislesCenter_eq_false_iff _ _ _ _⟩

/-- C4 counterexample: the image-optimizer `hasAdequateAisles` (also cited
by the claim) is not center-to-center.  With a standard 4×8 rack at the
origin and a bulk 6.5×5 rack placed at (8, 0), it returns `false` although
the center-to-center distance (√87.8125 ≈ 9.37) is at least the required
minimum 8.375 — under the claimed characterisation it would have to return
`true`. -/
theorem imageAisles_not_center_based :
    ImageOpt.hasAdequateAisles rackStd ⟨0, 0⟩ [rackBulkAt8] = false ∧
    ((minRequiredDistance ImageOpt.minAisleWidth rackStd rackBulkAt8 : ℚ) : ℝ) ≤
      calculateDistance (rackCenter rackStd ⟨0, 0⟩) (rackCenter rackBulkAt8 ⟨8, 0⟩) := by
  constructor
  · norm_num [ImageOpt.hasAdequateAisles, rackStd, rackBulkAt8, mkRack,
      ImageOpt.standardSpec, ImageOpt.bulkSpec, minRequiredDistance, distSq,
      ImageOpt.minAisleWidth]
  · rw [calculateDistance, le_sqrt_rat_iff]
    norm_num [rackStd, rackBulkAt8, mkRack, ImageOpt.standardSpec, ImageOpt.bulkSpec,
      minRequiredDistance, distSq, rackCenter, ImageOpt.minAisleWidth]

/-! ## The non-image grid strategy is deterministic (C3) -/

/-- C3 (amended): the grid strategies of optimizer.js and part_000 perform
no random draw, so two runs on the same `(racks, layout)` input return the
same solution — the same placements and the same score — whatever the
ambient `Math.random` streams.  (The image-optimizer grid strategy draws
random cells and is not deterministic — see the counterexample.) -/
theorem grid_strategy_deterministic (racks : List Rack) (layout : Layout)
    (rng₁ rng₂ : RandSeq) :
    Optimizer.placeRacksRun racks layout rng₁ = Optimizer.placeRacksRun racks layout rng₂ ∧
    Enhanced.gridBasedOptimizationRun racks layout rng₁ =
      Enhanced.gridBasedOptimizationRun racks layout rng₂ :=
  ⟨rfl, rfl⟩

/-- C3 counterexample: the image-optimizer grid strategy returns different
placements for the same input under two different random streams (the
single standard rack lands at (0, 0) under one stream and at (16, 8) under
the other). -/
theorem imageGrid_not_deterministic :
    (ImageOpt.gridBasedOptimization (ImageOpt.generateRacks ⟨1, 0, 0, 0⟩) layoutPlain
        [0, 0]).1.racks ≠
      (ImageOpt.gridBasedOptimization (ImageOpt.generateRacks ⟨1, 0, 0, 0⟩) layoutPlain
        [1/2, 1/2]).1.racks := by
  show (ImageOpt.gridRacksLoop (ImageOpt.generateRacks ⟨1, 0, 0, 0⟩) layoutPlain [0, 0]).1 ≠
    (ImageOpt.gridRacksLoop (ImageOpt.generateRacks ⟨1, 0, 0, 0⟩) layoutPlain [1/2, 1/2]).1
  have hr : ImageOpt.generateRacks ⟨1, 0, 0, 0⟩ = [mkRack "standard" ImageOpt.standardSpec 1] := by
    norm_num [ImageOpt.generateRacks, genRacks, show List.range 1 = [0] from rfl]
  have ht0 : ImageOpt.tryPlaceGrid (mkRack "standard" ImageOpt.standardSpec 1) layoutPlain []
      100 [0, 0] = (some ⟨0, 0⟩, []) := by
    show ImageOpt.tryPlaceGrid (mkRack "standard" ImageOpt.standardSpec 1) layoutPlain []
      (99 + 1) [0, 0] = (some ⟨0, 0⟩, [])
    rw [ImageOpt.tryPlaceGrid]
    norm_num [randNext, ImageOpt.gridSize, mkRack, ImageOpt.standardSpec, layoutPlain,
      ImageOpt.isValidPlacement, ImageOpt.hasAdequateAisles]
  have ht1 : ImageOpt.tryPlaceGrid (mkRack "standard" ImageOpt.standardSpec 1) layoutPlain []
      100 [1/2, 1/2] = (some ⟨16, 8⟩, []) := by
    show ImageOpt.tryPlaceGrid (mkRack "standard" ImageOpt.standardSpec 1) layoutPlain []
      (99 + 1) [1/2, 1/2] = (some ⟨16, 8⟩, [])
    rw [ImageOpt.tryPlaceGrid]
    norm_num [randNext, ImageOpt.gridSize, mkRack, ImageOpt.standardSpec, layoutPlain,
      ImageOpt.isValidPlacement, ImageOpt.hasAdequateAisles]
  rw [hr]
  intro heq
  have hx := congrArg (fun l => (((l.headD defaultRack).position).getD ⟨0, 0⟩).x) heq
  simp only [ImageOpt.gridRacksLoop, List.foldl_cons, List.foldl_nil, ht0, ht1] at hx
  norm_num [defaultRack, mkRack] at hx

/-! ## The total score is a clamped weighted sum (C6) -/

theorem clamp_bounds (S : ℝ) : 0 ≤ min 100 (max 0 S) ∧ min 100 (max 0 S) ≤ 100 :=
  ⟨le_min (by norm_num) (le_max_left 0 S), min_le_left _ _⟩

/-- C6: on a non-empty placed-rack list, every `calculateScore` variant
returns `totalScore = clamp(layoutEfficiency·30 + accessibility·25 +
workflow·25 + densityPlaceholder·20, 0, 100)` where the density term is the
file's fixed constant (0.2 in optimizer.js, 0.3 in part_000 and
image-optimizer.js — all within 0.2–0.3), so `totalScore ∈ [0, 100]`. -/
theorem totalScore_clamped (racks : List Rack) (layout : Layout) (h : racks ≠ []) :
    ((Optimizer.calculateScore racks layout).totalScore =
        min 100 (max 0 ((Optimizer.calculateScore racks layout).layoutEfficiency * 30 +
          (Optimizer.calculateScore racks layout).accessibility * 25 +
          (Optimizer.calculateScore racks layout).workflow * 25 +
          Optimizer.densityPlaceholder * 20)) ∧
      (0.2 : ℝ) ≤ Optimizer.densityPlaceholder ∧ Optimizer.densityPlaceholder ≤ (0.3 : ℝ) ∧
      0 ≤ (Optimizer.calculateScore racks layout).totalScore ∧
      (Optimizer.calculateScore racks layout).totalScore ≤ 100) ∧
    ((Enhanced.calculateScore racks layout).totalScore =
        min 100 (max 0 ((Enhanced.calculateScore racks layout).layoutEfficiency * 30 +
          (Enhanced.calculateScore racks layout).accessibility * 25 +
          (Enhanced.calculateScore racks layout).workflow * 25 +
          Enhanced.densityPlaceholder * 20)) ∧
      (0.2 : ℝ) ≤ Enhanced.densityPlaceholder ∧ Enhanced.densityPlaceholder ≤ (0.3 : ℝ) ∧
      0 ≤ (Enhanced.calculateScore racks layout).totalScore ∧
      (Enhanced.calculateScore racks layout).totalScore ≤ 100) ∧
    ((ImageOpt.calculateScore racks layout).totalScore =
        min 100 (max 0 ((ImageOpt.calculateScore racks layout).layoutEfficiency * 30 +
          (ImageOpt.calculateScore racks layout).accessibility * 25 +
          (ImageOpt.calculateScore racks layout).workflow * 25 +
          ImageOpt.densityPlaceholder * 20)) ∧
      (0.2 : ℝ) ≤ ImageOpt.densityPlaceholder ∧ ImageOpt.densityPlaceholder ≤ (0.3 : ℝ) ∧
      0 ≤ (ImageOpt.calculateScore racks layout).totalScore ∧
      (ImageOpt.calculateScore racks layout).totalScore ≤ 100) := by
  refine ⟨⟨?_, ?_, ?_, ?_, ?_⟩, ⟨?_, ?_, ?_, ?_, ?_⟩, ⟨?_, ?_, ?_, ?_, ?_⟩⟩
  · simp only [Optimizer.calculateScore, if_neg h]
  · norm_num [Optimizer.densityPlaceholder]
  · norm_num [Optimizer.densityPlaceholder]
  · simp only [Optimizer.calculateScore, if_neg h]; exact (clamp_bounds _).1
  · simp only [Optimizer.calculateScore, if_neg h]; exact (clamp_bounds _).2
  · simp only [Enhanced.calculateScore, if_neg h]
  · norm_num [Enhanced.densityPlaceholder]
  · norm_num [Enhanced.densityPlaceholder]
  · simp only [Enhanced.calculateScore, if_neg h]; exact (clamp_bounds _).1
  · simp only [Enhanced.calculateScore, if_neg h]; exact (clamp_bounds _).2
  · simp only [ImageOpt.calculateScore, if_neg h]
  · norm_num [ImageOpt.densityPlaceholder]
  · norm_num [ImageOpt.densityPlaceholder]
  · simp only [ImageOpt.calculateScore, if_neg h]; exact (clamp_bounds _).1
  · simp only [ImageOpt.calculateScore, if_neg h]; exact (clamp_bounds _).2

/-- C6 witness: the theorem applied at a concrete non-empty rack list. -/
theorem totalScore_clamped_witness :
    ([rackStd] : List Rack) ≠ [] ∧
      0 ≤ (Optimizer.calculateScore [rackStd] layoutPlain).totalScore ∧
      (Optimizer.calculateScore [rackStd] layoutPlain).totalScore ≤ 100 :=
  ⟨by simp,
   (totalScore_clamped [rackStd] layoutPlain (by simp)).1.2.2.2.1,
   (totalScore_clamped [rackStd] layoutPlain (by simp)).1.2.2.2.2⟩

/-! ## Rack generation: one id counter shared across types (C7) -/

theorem genRacks_getElem (std hd fz bk : RackSpec) (c : Config) (k : ℕ)
    (h : k < (genRacks std hd fz bk c).length) :
    (genRacks std hd fz bk c)[k] =
      if k < c.standardRacks then mkRack "standard" std (1 + k)
      else if k < c.standardRacks + c.highDensityRacks then mkRack "high-density" hd (1 + k)
      else if k < c.standardRacks + c.highDensityRacks + c.freezerRacks then
        mkRack "freezer" fz (1 + k)
      else mkRack "bulk" bk (1 + k) := by
  have hlen : (genRacks std hd fz bk c).length =
      c.standardRacks + c.highDensityRacks + c.freezerRacks + c.bulkRacks := by
    simp only [genRacks, List.length_append, List.length_map, List.length_range]
  rcases Nat.lt_or_ge k c.standardRacks with h1 | h1
  · have e1 : (genRacks std hd fz bk c)[k] = mkRack "standard" std (1 + k) := by
      simp only [genRacks]
      rw [List.getElem_append_left
            (by simp only [List.length_append, List.length_map, List.length_range]; omega),
          List.getElem_append_left
            (by simp only [List.length_append, List.length_map, List.length_range]; omega),
          List.getElem_append_left (by simp only [List.length_map, List.length_range]; omega)]
      simp
    rw [e1, if_pos h1]
  · rcases Nat.lt_or_ge k (c.standardRacks + c.highDensityRacks) with h2 | h2
    · have e2 : (genRacks std hd fz bk c)[k] = mkRack "high-density" hd (1 + k) := by
        simp only [genRacks]
        rw [List.getElem_append_left
              (by simp only [List.length_append, List.length_map, List.length_range]; omega),
            List.getElem_append_left
              (by simp only [List.length_append, List.length_map, List.length_range]; omega),
            List.getElem_append_right (by simp only [List.length_map, List.length_range]; omega)]
        simp only [List.length_map, List.length_range, List.getElem_map, List.getElem_range]
        congr 1
        omega
      rw [e2, if_neg (by omega), if_pos h2]
    · rcases Nat.lt_or_ge k (c.standardRacks + c.highDensityRacks + c.freezerRacks) with h3 | h3
      · have e3 : (genRacks std hd fz bk c)[k] = mkRack "freezer" fz (1 + k) := by
          simp only [genRacks]
          rw [List.getElem_append_left
                (by simp only [List.length_append, List.length_map, List.length_range]; omega),
              List.getElem_append_right
                (by simp only [List.length_append, List.length_map, List.length_range]; omega)]
          simp only [List.length_append, List.length_map, List.length_range, List.getElem_map,
            List.getElem_range]
          congr 1
          omega
        rw [e3, if_neg (by omega), if_neg (by omega), if_pos h3]
      · have e4 : (genRacks std hd fz bk c)[k] = mkRack "bulk" bk (1 + k) := by
          simp only [genRacks]
          rw [List.getElem_append_right
                (by simp only [List.length_append, List.length_map, List.length_range]; omega)]
          simp only [List.length_append, List.length_map, List.length_range, List.getElem_map,
            List.getElem_range]
          congr 1
          omega
        rw [e4, if_neg (by omega), if_neg (by omega), if_neg (by omega)]

theorem genRacks_types (std hd fz bk : RackSpec) (c : Config) :
    (genRacks std hd fz bk c).map Rack.type =
      List.replicate c.standardRacks "standard" ++
      List.replicate c.highDensityRacks "high-density" ++
      List.replicate c.freezerRacks "freezer" ++
      List.replicate c.bulkRacks "bulk" := by
  simp [genRacks, List.map_map, mkRack, Function.comp_def, List.map_const']

/-- C7 (amended): `generateRacks` emits, for each type in the fixed,
caller-independent order standard → high-density → freezer → bulk, exactly
the requested count of racks, each with position absent — but the id suffix
comes from one counter shared by all four type loops: the k-th generated
rack overall (0-based) has id `"{type}_{k+1}"`, so numbering does not
restart at 1 for each type. -/
theorem generateRacks_sequential_ids (config : Config) (k : ℕ)
    (h₁ : k < (Optimizer.generateRacks config).length)
    (h₂ : k < (Enhanced.generateRacks config).length) :
    ((Optimizer.generateRacks config).map Rack.type =
        List.replicate config.standardRacks "standard" ++
        List.replicate config.highDensityRacks "high-density" ++
        List.replicate config.freezerRacks "freezer" ++
        List.replicate config.bulkRacks "bulk" ∧
      (Optimizer.generateRacks config)[k].id =
        (Optimizer.generateRacks config)[k].type ++ "_" ++ toString (k + 1) ∧
      (Optimizer.generateRacks config)[k].position = none) ∧
    ((Enhanced.generateRacks config).map Rack.type =
        List.replicate config.standardRacks "standard" ++
        List.replicate config.highDensityRacks "high-density" ++
        List.replicate config.freezerRacks "freezer" ++
        List.replicate config.bulkRacks "bulk" ∧
      (Enhanced.generateRacks config)[k].id =
        (Enhanced.generateRacks config)[k].type ++ "_" ++ toString (k + 1) ∧
      (Enhanced.generateRacks config)[k].position = none) := by
  constructor
  · refine ⟨genRacks_types _ _ _ _ _, ?_, ?_⟩ <;>
      rw [show (Optimizer.generateRacks config)[k] =
          (genRacks Optimizer.standardSpec Optimizer.highDensitySpec Optimizer.freezerSpec
            Optimizer.bulkSpec config)[k] from rfl, genRacks_getElem _ _ _ _ _ _ h₁] <;>
      split_ifs <;> simp [mkRack, Nat.add_comm 1 k]
  · refine ⟨genRacks_types _ _ _ _ _, ?_, ?_⟩ <;>
      rw [show (Enhanced.generateRacks config)[k] =
          (genRacks Enhanced.standardSpec Enhanced.highDensitySpec Enhanced.freezerSpec
            Enhanced.bulkSpec config)[k] from rfl, genRacks_getElem _ _ _ _ _ _ h₂] <;>
      split_ifs <;> simp [mkRack, Nat.add_comm 1 k]

/-- C7 counterexample: with one standard and one high-density rack
requested, the first high-density rack gets id `"high-density_2"` — the
claim's per-type numbering would require `"high-density_1"`, which appears
nowhere. -/
theorem generateRacks_ids_not_per_type :
    (Optimizer.generateRacks ⟨1, 1, 0, 0⟩).map Rack.id = ["standard_1", "high-density_2"] ∧
    "high-density_1" ∉ (Optimizer.generateRacks ⟨1, 1, 0, 0⟩).map Rack.id := by
  decide

/-- C7 witness: the theorem applied at the concrete config `⟨1, 1, 0, 0⟩`
and index 1. -/
theorem generateRacks_sequential_ids_witness :
    1 < (Optimizer.generateRacks ⟨1, 1, 0, 0⟩).length ∧
    1 < (Enhanced.generateRacks ⟨1, 1, 0, 0⟩).length ∧
    (Optimizer.generateRacks ⟨1, 1, 0, 0⟩).map Rack.type =
      List.replicate 1 "standard" ++ List.replicate 1 "high-density" ++
      List.replicate 0 "freezer" ++ List.replicate 0 "bulk" :=
  ⟨by decide, by decide,
   (generateRacks_sequential_ids ⟨1, 1, 0, 0⟩ 1 (by decide) (by decide)).1.1⟩

/-! ## The placement strategies drop unplaced racks (C2) -/

theorem placeStep_eq_some (valid : Rack → Pt → List Rack → Bool) (cells : List Pt)
    (placed : List Rack) (rack : Rack) (p : Pt)
    (hf : cells.find? (fun q => valid rack q placed) = some p) :
    placeStep valid cells placed rack = placed ++ [{ rack with position := some p }] := by
  rw [placeStep, hf]

theorem placeStep_eq_none (valid : Rack → Pt → List Rack → Bool) (cells : List Pt)
    (placed : List Rack) (rack : Rack)
    (hf : cells.find? (fun q => valid rack q placed) = none) :
    placeStep valid cells placed rack = placed := by
  rw [placeStep, hf]

theorem placeLoop_from_all_isSome (valid : Rack → Pt → List Rack → Bool) (cells : List Pt) :
    ∀ (racks placed : List Rack), (∀ r ∈ placed, r.position.isSome) →
      ∀ r ∈ racks.foldl (placeStep valid cells) placed, r.position.isSome := by
  intro racks
  induction racks with
  | nil => intro placed hp r hr; exact hp r hr
  | cons a t ih =>
    intro placed hp r hr
    rw [List.foldl_cons] at hr
    refine ih _ ?_ r hr
    intro q hq
    rcases hf : cells.find? (fun p => valid a p placed) with _ | p
    · rw [placeStep_eq_none _ _ _ _ hf] at hq
      exact hp q hq
    · rw [placeStep_eq_some _ _ _ _ _ hf] at hq
      rcases List.mem_append.mp hq with hq' | hq'
      · exact hp q hq'
      · rcases List.mem_singleton.mp hq' with rfl
        rfl

theorem placeLoop_from_strip_sublist (valid : Rack → Pt → List Rack → Bool) (cells : List Pt) :
    ∀ (racks placed : List Rack), ∃ s,
      (racks.foldl (placeStep valid cells) placed).map stripPosition =
        placed.map stripPosition ++ s ∧ s.Sublist (racks.map stripPosition) := by
  intro racks
  induction racks with
  | nil => intro placed; exact ⟨[], by simp, by simp⟩
  | cons a t ih =>
    intro placed
    rw [List.foldl_cons]
    rcases hf : cells.find? (fun p => valid a p placed) with _ | p
    · rw [placeStep_eq_none _ _ _ _ hf]
      obtain ⟨s, hs, hsub⟩ := ih placed
      exact ⟨s, hs, hsub.trans (List.sublist_cons_self _ _)⟩
    · rw [placeStep_eq_some _ _ _ _ _ hf]
      obtain ⟨s, hs, hsub⟩ := ih (placed ++ [{ a with position := some p }])
      refine ⟨stripPosition a :: s, ?_, ?_⟩
      · rw [hs, List.map_append]
        simp [stripPosition, List.append_assoc]
      · rw [List.map_cons]
        exact hsub.cons₂ _

/-- C2 (amended): a placement strategy returns only the successfully placed
racks.  Every rack in the grid strategy's returned set has a present
position, and the returned set is (modulo the assigned positions) a sublist
of the requested racks — a rack that exhausts the attempt cap is omitted
from the returned set, not kept with an absent position.  Likewise the
genetic strategy's `evaluateIndividual` returns only the individual's
placed-rack subset. -/
theorem placeRacks_returns_placed_sublist (racks : List Rack) (layout : Layout) :
    (∀ r ∈ (Optimizer.placeRacks racks layout).racks, r.position.isSome) ∧
    ((Optimizer.placeRacks racks layout).racks.map stripPosition).Sublist
      (racks.map stripPosition) ∧
    ∀ individual, (Enhanced.evaluateIndividual individual layout).racks =
      individual.filter fun r => r.position.isSome := by
  have hracks : (Optimizer.placeRacks racks layout).racks =
      Optimizer.placeRacksList racks layout := rfl
  refine ⟨?_, ?_, fun individual => rfl⟩
  · rw [hracks]
    exact placeLoop_from_all_isSome _ _ racks [] (by intro r hr; cases hr)
  · rw [hracks]
    obtain ⟨s, hs, hsub⟩ := placeLoop_from_strip_sublist
      (fun rack p placed => Optimizer.isValidPlacement rack p layout placed)
      ((gridCells layout 2.0 2.0).take Optimizer.maxAttempts) racks []
    rw [Optimizer.placeRacksList, placeLoop]
    rw [List.map_nil, List.nil_append] at hs
    rw [hs]
    exact hsub

/-- The grid run on `layoutTiny` with two requested standard racks: the
first is placed at the origin, the second fits in no grid cell and is
dropped. -/
theorem placeRacksList_tiny_eval :
    Optimizer.placeRacksList (Optimizer.generateRacks ⟨2, 0, 0, 0⟩) layoutTiny =
      [{ mkRack "standard" Optimizer.standardSpec 1 with position := some ⟨0, 0⟩ }] := by
  have hracks : Optimizer.generateRacks ⟨2, 0, 0, 0⟩ =
      [mkRack "standard" Optimizer.standardSpec 1, mkRack "standard" Optimizer.standardSpec 2] := by
    norm_num [Optimizer.generateRacks, genRacks, show List.range 2 = [0, 1] from rfl,
      show List.range 0 = ([] : List ℕ) from rfl]
  have hcells : (gridCells layoutTiny 2.0 2.0).take Optimizer.maxAttempts =
      [⟨0, 0⟩, (⟨0, 2⟩ : Pt)] := by
    have hg : gridCells layoutTiny 2.0 2.0 = [⟨0, 0⟩, (⟨0, 2⟩ : Pt)] := by
      have hx : ⌊layoutTiny.width / (2.0 : ℚ)⌋ = 1 := by norm_num [layoutTiny]
      have hy : ⌊layoutTiny.height / (2.0 : ℚ)⌋ = 2 := by norm_num [layoutTiny]
      rw [gridCells, hx, hy]
      simp only [Int.reduceToNat, Int.toNat_one, show List.range 1 = [0] from rfl,
        show List.range 2 = [0, 1] from rfl, List.flatMap_cons, List.flatMap_nil,
        List.map_cons, List.map_nil, List.append_nil]
      norm_num
    rw [hg, List.take_of_length_le (by norm_num [Optimizer.maxAttempts])]
  rw [Optimizer.placeRacksList, placeLoop, hracks, hcells]
  norm_num [placeStep, List.find?, Optimizer.isValidPlacement, Optimizer.hasAdequateAisles,
    hasAdequateAislesCenter, minRequiredDistance, distSq, rackCenter, rectanglesOverlap,
    Optimizer.minAisleWidth, mkRack, Optimizer.standardSpec, layoutTiny]

/-- C2 counterexample: two standard racks are requested but the returned
rack set of the grid strategy contains only the placed one — the rack that
could not be placed within the attempt cap is dropped, not returned with an
absent position. -/
theorem grid_unplaced_rack_dropped :
    (Optimizer.placeRacks (Optimizer.generateRacks ⟨2, 0, 0, 0⟩) layoutTiny).racks.map Rack.id =
      ["standard_1"] ∧
    (Optimizer.generateRacks ⟨2, 0, 0, 0⟩).map Rack.id = ["standard_1", "standard_2"] := by
  constructor
  · show (Optimizer.placeRacksList (Optimizer.generateRacks ⟨2, 0, 0, 0⟩) layoutTiny).map
      Rack.id = ["standard_1"]
    rw [placeRacksList_tiny_eval]
    decide
  · decide

/-- C2 witness: the theorem applied at the concrete `layoutTiny` run, on the
rack it returns. -/
theorem placeRacks_returns_placed_sublist_witness :
    { mkRack "standard" Optimizer.standardSpec 1 with position := some (⟨0, 0⟩ : Pt) } ∈
      (Optimizer.placeRacks (Optimizer.generateRacks ⟨2, 0, 0, 0⟩) layoutTiny).racks ∧
    ({ mkRack "standard" Optimizer.standardSpec 1 with
        position := some (⟨0, 0⟩ : Pt) } : Rack).position.isSome := by
  have hmem : { mkRack "standard" Optimizer.standardSpec 1 with position := some (⟨0, 0⟩ : Pt) } ∈
      (Optimizer.placeRacks (Optimizer.generateRacks ⟨2, 0, 0, 0⟩) layoutTiny).racks := by
    show _ ∈ Optimizer.placeRacksList (Optimizer.generateRacks ⟨2, 0, 0, 0⟩) layoutTiny
    rw [placeRacksList_tiny_eval]
    exact List.mem_singleton.mpr rfl
  exact ⟨hmem,
    (placeRacks_returns_placed_sublist (Optimizer.generateRacks ⟨2, 0, 0, 0⟩) layoutTiny).1
      _ hmem⟩

/-! ## Zero usable area: almost all metrics are 0, but areaUtilization is NaN (C5) -/

/-- No rack can be placed on the degenerate layout (the grid has no cells at
all, since `⌊0 / 2⌋ = 0`). -/
theorem placeRacksList_degenerate_eval :
    Optimizer.placeRacksList (Optimizer.generateRacks ⟨1, 0, 0, 0⟩) layoutDegenerate = [] := by
  have hracks : Optimizer.generateRacks ⟨1, 0, 0, 0⟩ =
      [mkRack "standard" Optimizer.standardSpec 1] := by
    norm_num [Optimizer.generateRacks, genRacks, show List.range 1 = [0] from rfl,
      show List.range 0 = ([] : List ℕ) from rfl]
  have hcells : (gridCells layoutDegenerate 2.0 2.0).take Optimizer.maxAttempts = [] := by
    have hg : gridCells layoutDegenerate 2.0 2.0 = [] := by
      have hx : ⌊layoutDegenerate.width / (2.0 : ℚ)⌋ = 0 := by norm_num [layoutDegenerate]
      rw [gridCells, hx]
      simp [Int.toNat_zero, show List.range 0 = ([] : List ℕ) from rfl]
    rw [hg, List.take_nil]
  rw [Optimizer.placeRacksList, placeLoop, hracks, hcells]
  norm_num [placeStep, List.find?]

/-- C5: on a zero-usable-area layout the grid optimization places nothing:
the score and its components are 0 (not NaN, no exception), the count,
capacity and average-distance metrics are 0 — but `areaUtilization` is
`0 / 0 = NaN`, because `calculateMetrics` (unlike `calculateScore` and
`calculateAverageDistance`) has no emptiness guard.  This contradicts the
spec's requirement (§7) that degenerate inputs produce 0-valued metrics. -/
theorem degenerate_area_metrics :
    (Optimizer.placeRacks (Optimizer.generateRacks ⟨1, 0, 0, 0⟩) layoutDegenerate).score = 0 ∧
    (Optimizer.placeRacks (Optimizer.generateRacks ⟨1, 0, 0, 0⟩)
        layoutDegenerate).metrics.layoutEfficiency = 0 ∧
    (Optimizer.placeRacks (Optimizer.generateRacks ⟨1, 0, 0, 0⟩)
        layoutDegenerate).metrics.accessibility = 0 ∧
    (Optimizer.placeRacks (Optimizer.generateRacks ⟨1, 0, 0, 0⟩)
        layoutDegenerate).metrics.workflow = 0 ∧
    (Optimizer.placeRacks (Optimizer.generateRacks ⟨1, 0, 0, 0⟩)
        layoutDegenerate).metrics.totalRacks = 0 ∧
    (Optimizer.placeRacks (Optimizer.generateRacks ⟨1, 0, 0, 0⟩)
        layoutDegenerate).metrics.totalCapacity = 0 ∧
    (Optimizer.placeRacks (Optimizer.generateRacks ⟨1, 0, 0, 0⟩)
        layoutDegenerate).metrics.avgDistanceToEntrance = 0 ∧
    (Optimizer.placeRacks (Optimizer.generateRacks ⟨1, 0, 0, 0⟩)
        layoutDegenerate).metrics.avgDistanceToDock = 0 ∧
    (Optimizer.placeRacks (Optimizer.generateRacks ⟨1, 0, 0, 0⟩)
        layoutDegenerate).metrics.areaUtilization = JsNum.nan := by
  have hP : Optimizer.placeRacks (Optimizer.generateRacks ⟨1, 0, 0, 0⟩) layoutDegenerate =
      buildSolution [] (Optimizer.calculateScore [] layoutDegenerate)
        (Optimizer.calculateMetrics [] layoutDegenerate) := by
    rw [Optimizer.placeRacks, placeRacksList_degenerate_eval]
  rw [hP]
  norm_num [buildSolution, Optimizer.calculateScore, Optimizer.calculateMetrics,
    calculateAverageDistance, jsDiv, layoutDegenerate]

/-! ## Mutation only moves placed racks (C9) -/

theorem keepsIdentity_refl (r : Rack) : keepsIdentity r r :=
  ⟨rfl, rfl, rfl, rfl, rfl⟩

theorem mutateStep_preserves (layout : Layout) (individual : List Rack)
    (acc : List Rack × RandSeq) (i : ℕ)
    (hlen : acc.1.length = individual.length)
    (hfields : ∀ j (hj : j < acc.1.length) (hj' : j < individual.length),
      keepsIdentity acc.1[j] individual[j] ∧
        (individual[j].position = none → acc.1[j].position = none)) :
    (Enhanced.mutateStep layout acc i).1.length = individual.length ∧
    ∀ j (hj : j < (Enhanced.mutateStep layout acc i).1.length)
      (hj' : j < individual.length),
      keepsIdentity (Enhanced.mutateStep layout acc i).1[j] individual[j] ∧
        (individual[j].position = none →
          (Enhanced.mutateStep layout acc i).1[j].position = none) := by
  simp only [Enhanced.mutateStep]
  split
  · rename_i hcond
    split
    · rename_i hvalid
      refine ⟨by simpa using hlen, ?_⟩
      intro j hj hj'
      have hjlen : j < acc.1.length := by simpa using hj
      by_cases hij : i = j
      · subst hij
        have hrack : acc.1.getD i defaultRack = acc.1[i] :=
          List.getD_eq_getElem acc.1 defaultRack hjlen
        have hpos : (acc.1.getD i defaultRack).position.isSome = true := by
          rw [Bool.and_eq_true] at hcond
          exact hcond.2
        obtain ⟨hK, himp⟩ := hfields i hjlen hj'
        constructor
        · rw [List.getElem_set, if_pos rfl]
          obtain ⟨h1, h2, h3, h4, h5⟩ := hK
          rw [hrack]
          exact ⟨h1, h2, h3, h4, h5⟩
        · intro hnone
          exfalso
          rw [hrack, himp hnone] at hpos
          simp at hpos
      · rw [List.getElem_set_ne hij]
        exact hfields j hjlen hj'
    · exact ⟨hlen, fun j hj hj' => hfields j (by simpa using hj) hj'⟩
  · exact ⟨hlen, fun j hj hj' => hfields j (by simpa using hj) hj'⟩

theorem mutate_fold_preserves (layout : Layout) (individual : List Rack) :
    ∀ (is : List ℕ) (acc : List Rack × RandSeq),
      (acc.1.length = individual.length ∧
        ∀ j (hj : j < acc.1.length) (hj' : j < individual.length),
          keepsIdentity acc.1[j] individual[j] ∧
            (individual[j].position = none → acc.1[j].position = none)) →
      ((is.foldl (Enhanced.mutateStep layout) acc).1.length = individual.length ∧
        ∀ j (hj : j < (is.foldl (Enhanced.mutateStep layout) acc).1.length)
          (hj' : j < individual.length),
          keepsIdentity (is.foldl (Enhanced.mutateStep layout) acc).1[j] individual[j] ∧
            (individual[j].position = none →
              (is.foldl (Enhanced.mutateStep layout) acc).1[j].position = none)) := by
  intro is
  induction is with
  | nil => intro acc h; exact h
  | cons a t ih =>
    intro acc h
    rw [List.foldl_cons]
    exact ih _ ⟨(mutateStep_preserves layout individual acc a h.1 h.2).1,
      (mutateStep_preserves layout individual acc a h.1 h.2).2⟩

/-- The mutation operator never changes the number of racks. -/
theorem mutate_length (individual : List Rack) (layout : Layout) (rng : RandSeq) :
    (Enhanced.mutate individual layout rng).1.length = individual.length :=
  (mutate_fold_preserves layout individual (List.range individual.length) (individual, rng)
    ⟨rfl, fun j _ hj' => ⟨keepsIdentity_refl _, fun h => h⟩⟩).1

/-- C9: `mutate` returns a list of the same length in which every rack keeps
its `id`, `type`, `width`, `height` and `capacity`; only the position can
change, and a rack whose position is absent still has an absent position in
the output (mutation never places an unplaced rack). -/
theorem mutate_preserves_rack_identity (individual : List Rack) (layout : Layout)
    (rng : RandSeq) :
    (Enhanced.mutate individual layout rng).1.length = individual.length ∧
    ∀ j (hj : j < (Enhanced.mutate individual layout rng).1.length)
      (hj' : j < individual.length),
      keepsIdentity (Enhanced.mutate individual layout rng).1[j] individual[j] ∧
        (individual[j].position = none →
          (Enhanced.mutate individual layout rng).1[j].position = none) :=
  mutate_fold_preserves layout individual (List.range individual.length) (individual, rng)
    ⟨rfl, fun j _ hj' => ⟨keepsIdentity_refl _, fun h => h⟩⟩

/-! ## Geometric invariants of the grid strategy's output (C1) -/

theorem enhanced_valid_elim (rack : Rack) (position : Pt) (layout : Layout)
    (placed : List Rack) (h : Enhanced.isValidPlacement rack position layout placed = true) :
    (∀ c ∈ layout.constraints,
        rectanglesOverlap position ⟨rack.width, rack.height⟩ c.position c.dimensions = false) ∧
    (∀ b ∈ placed, ∀ pb, b.position = some pb →
        rectanglesOverlap position ⟨rack.width, rack.height⟩ pb ⟨b.width, b.height⟩ = false ∧
        ¬(0 < minRequiredDistance Enhanced.minAisleWidth rack b ∧
          distSq (rackCenter rack position) (rackCenter b pb) <
            minRequiredDistance Enhanced.minAisleWidth rack b ^ 2)) := by
  rw [Enhanced.isValidPlacement] at h
  split at h
  · exact absurd h (by simp)
  · split at h
    · exact absurd h (by simp)
    · split at h
      · exact absurd h (by simp)
      · split at h
        · exact absurd h (by simp)
        · rename_i h1 h2 h3 h4
          constructor
          · intro c hc
            have h3' := List.any_eq_false.mp (Bool.eq_false_iff.mpr h3) c hc
            revert h3'
            cases hb : rectanglesOverlap position ⟨rack.width, rack.height⟩
              c.position c.dimensions <;> simp
          · intro b hb pb hpb
            have h4' := List.any_eq_false.mp (Bool.eq_false_iff.mpr h4) b hb
            rw [hpb] at h4'
            have h5 := List.all_eq_true.mp h b hb
            rw [hpb] at h5
            constructor
            · have h4'' : ¬(rectanglesOverlap position ⟨rack.width, rack.height⟩ pb
                  ⟨b.width, b.height⟩ = true) := by simpa using h4'
              exact Bool.eq_false_iff.mpr h4''
            · rintro ⟨hP, hQ⟩
              simp only [Bool.not_eq_true'] at h5
              rw [decide_eq_true hP, decide_eq_true hQ] at h5
              simp at h5

theorem enhanced_placeLoop_invariant (layout : Layout) (cells : List Pt) :
    ∀ (racks placed : List Rack),
      placed.Pairwise (racksSeparated Enhanced.minAisleWidth) →
      (∀ r ∈ placed, r.position.isSome = true ∧ avoidsObstacles layout r) →
      ((racks.foldl (placeStep
          (fun rack p pl => Enhanced.isValidPlacement rack p layout pl) cells)
          placed).Pairwise (racksSeparated Enhanced.minAisleWidth) ∧
        ∀ r ∈ racks.foldl (placeStep
          (fun rack p pl => Enhanced.isValidPlacement rack p layout pl) cells) placed,
          r.position.isSome = true ∧ avoidsObstacles layout r) := by
  intro racks
  induction racks with
  | nil => intro placed hPW hAll; exact ⟨hPW, hAll⟩
  | cons a t ih =>
    intro placed hPW hAll
    rw [List.foldl_cons]
    rcases hf : cells.find? (fun p =>
        Enhanced.isValidPlacement a p layout placed) with _ | p
    · rw [placeStep_eq_none _ _ _ _ hf]
      exact ih placed hPW hAll
    · rw [placeStep_eq_some _ _ _ _ _ hf]
      have hvalid : Enhanced.isValidPlacement a p layout placed = true := by
        simpa using List.find?_some hf
      obtain ⟨hObs, hSep⟩ := enhanced_valid_elim a p layout placed hvalid
      refine ih _ ?_ ?_
      · rw [List.pairwise_append]
        refine ⟨hPW, List.pairwise_singleton _ _, ?_⟩
        intro b hb a' ha'
        rcases List.mem_singleton.mp ha' with rfl
        intro pb pa' hpb hpa'
        have hpa'' : some p = some pa' := hpa'
        injection hpa'' with hpp
        rw [← hpp]
        obtain ⟨hover, haisle⟩ := hSep b hb pb hpb
        constructor
        · rw [rectanglesOverlap_symm]
          exact hover
        · rw [show minRequiredDistance Enhanced.minAisleWidth b
              { a with position := some p } =
              minRequiredDistance Enhanced.minAisleWidth a b from by
            rw [minRequiredDistance_symm]; rfl]
          rw [show rackCenter { a with position := some p } p = rackCenter a p from rfl]
          rw [calculateDistance, le_sqrt_rat_iff, distSq_symm]
          exact haisle
      · intro r hr
        rcases List.mem_append.mp hr with hr' | hr'
        · exact hAll r hr'
        · rcases List.mem_singleton.mp hr' with rfl
          refine ⟨rfl, ?_⟩
          intro q hq c hc
          have hq' : some p = some q := hq
          injection hq' with hqq
          subst hqq
          exact hObs c hc

/-- C1: every rack set returned by the part_000 grid strategy satisfies the
geometric invariants: all returned racks are placed, every pair of placed
racks neither overlaps nor violates the aisle-clearance inequality of §4.3
item 5 (center-to-center distance at least
`minAisleWidth + (widths + heights) / 4`), and no placed rack overlaps any
fixed obstacle of the layout. -/
theorem placeRacks_geometric_invariants (racks : List Rack) (layout : Layout) :
    (Enhanced.placeRacks racks layout).racks.Pairwise
      (racksSeparated Enhanced.minAisleWidth) ∧
    ∀ r ∈ (Enhanced.placeRacks racks layout).racks,
      r.position.isSome = true ∧ avoidsObstacles layout r := by
  have hracks : (Enhanced.placeRacks racks layout).racks =
      Enhanced.placeRacksList racks layout := rfl
  rw [hracks, Enhanced.placeRacksList, placeLoop]
  exact enhanced_placeLoop_invariant layout _ racks [] List.Pairwise.nil
    (by intro r hr; cases hr)

/-- The part_000 grid run on `layoutShaped` with one standard rack: the rack
lands on the first grid cell, the origin. -/
theorem placeRacksList_shaped_eval :
    Enhanced.placeRacksList (Enhanced.generateRacks ⟨1, 0, 0, 0⟩) layoutShaped =
      [rackStdPlaced] := by
  have hracks : Enhanced.generateRacks ⟨1, 0, 0, 0⟩ =
      [mkRack "standard" Enhanced.standardSpec 1] := by
    norm_num [Enhanced.generateRacks, genRacks, show List.range 1 = [0] from rfl,
      show List.range 0 = ([] : List ℕ) from rfl]
  have hcells : (gridCells layoutShaped 4.0 4.0).take Enhanced.maxAttempts =
      [⟨0, 0⟩, ⟨0, 4⟩, ⟨4, 0⟩, (⟨4, 4⟩ : Pt)] := by
    have hg : gridCells layoutShaped 4.0 4.0 = [⟨0, 0⟩, ⟨0, 4⟩, ⟨4, 0⟩, (⟨4, 4⟩ : Pt)] := by
      have hx : ⌊layoutShaped.width / (4.0 : ℚ)⌋ = 2 := by norm_num [layoutShaped]
      have hy : ⌊layoutShaped.height / (4.0 : ℚ)⌋ = 2 := by norm_num [layoutShaped]
      rw [gridCells, hx, hy]
      simp only [Int.reduceToNat, show List.range 2 = [0, 1] from rfl, List.flatMap_cons,
        List.flatMap_nil, List.map_cons, List.map_nil, List.append_nil]
      norm_num
    rw [hg, List.take_of_length_le (by norm_num [Enhanced.maxAttempts])]
  rw [Enhanced.placeRacksList, placeLoop, hracks, hcells]
  norm_num [placeStep, List.find?, Enhanced.isValidPlacement, Enhanced.hasAdequateAisles,
    hasAdequateAislesCenter, Enhanced.isRackInStoreShape, Enhanced.isPointInStore,
    rectanglesOverlap, mkRack, Enhanced.standardSpec, layoutShaped, rackStdPlaced]

/-- C1 witness: the theorem applied to the concrete `layoutShaped` run, on
the rack it places. -/
theorem placeRacks_geometric_invariants_witness :
    rackStdPlaced ∈
      (Enhanced.placeRacks (Enhanced.generateRacks ⟨1, 0, 0, 0⟩) layoutShaped).racks ∧
    rackStdPlaced.position.isSome = true ∧ avoidsObstacles layoutShaped rackStdPlaced := by
  have hmem : rackStdPlaced ∈
      (Enhanced.placeRacks (Enhanced.generateRacks ⟨1, 0, 0, 0⟩) layoutShaped).racks := by
    show rackStdPlaced ∈ Enhanced.placeRacksList (Enhanced.generateRacks ⟨1, 0, 0, 0⟩)
      layoutShaped
    rw [placeRacksList_shaped_eval]
    exact List.mem_singleton.mpr rfl
  exact ⟨hmem, (placeRacks_geometric_invariants (Enhanced.generateRacks ⟨1, 0, 0, 0⟩)
    layoutShaped).2 rackStdPlaced hmem⟩

/-! ## The genetic loop's global best (C8) -/

theorem evalStep_bestScore (layout : Layout) (acc : List Evaluated × Option Solution × ℝ)
    (a : List Rack) :
    (Enhanced.evalStep layout acc a).2.2 =
      if (Enhanced.evaluateIndividual a layout).score > acc.2.2 then
        (Enhanced.evaluateIndividual a layout).score
      else acc.2.2 := by
  simp only [Enhanced.evalStep]

theorem evalStep_best (layout : Layout) (acc : List Evaluated × Option Solution × ℝ)
    (a : List Rack) :
    (Enhanced.evalStep layout acc a).2.1 =
      if (Enhanced.evaluateIndividual a layout).score > acc.2.2 then
        some (Enhanced.evaluateIndividual a layout)
      else acc.2.1 := by
  simp only [Enhanced.evalStep]

theorem evalFold_bestScore_mono (layout : Layout) :
    ∀ (pop : List (List Rack)) (acc : List Evaluated × Option Solution × ℝ),
      acc.2.2 ≤ (pop.foldl (Enhanced.evalStep layout) acc).2.2 := by
  intro pop
  induction pop with
  | nil => intro acc; exact le_refl _
  | cons a t ih =>
    intro acc
    rw [List.foldl_cons]
    refine le_trans ?_ (ih (Enhanced.evalStep layout acc a))
    rw [evalStep_bestScore]
    split
    · exact le_of_lt (by assumption)
    · exact le_refl _

theorem evalFold_ge_members (layout : Layout) :
    ∀ (pop : List (List Rack)) (acc : List Evaluated × Option Solution × ℝ),
      ∀ ind ∈ pop, (Enhanced.evaluateIndividual ind layout).score ≤
        (pop.foldl (Enhanced.evalStep layout) acc).2.2 := by
  intro pop
  induction pop with
  | nil => intro acc ind hind; cases hind
  | cons a t ih =>
    intro acc ind hind
    rw [List.foldl_cons]
    rcases List.mem_cons.mp hind with rfl | hmem
    · refine le_trans ?_ (evalFold_bestScore_mono layout t (Enhanced.evalStep layout acc ind))
      rw [evalStep_bestScore]
      split
      · exact le_refl _
      · exact le_of_not_lt (by assumption)
    · exact ih (Enhanced.evalStep layout acc a) ind hmem

theorem evalFold_link (layout : Layout) :
    ∀ (pop : List (List Rack)) (acc : List Evaluated × Option Solution × ℝ),
      (∀ sol, acc.2.1 = some sol → sol.score = acc.2.2) →
      ∀ sol, (pop.foldl (Enhanced.evalStep layout) acc).2.1 = some sol →
        sol.score = (pop.foldl (Enhanced.evalStep layout) acc).2.2 := by
  intro pop
  induction pop with
  | nil => intro acc h; exact h
  | cons a t ih =>
    intro acc h
    rw [List.foldl_cons]
    refine ih (Enhanced.evalStep layout acc a) ?_
    intro sol hsol
    rw [evalStep_best] at hsol
    rw [evalStep_bestScore]
    revert hsol
    split
    · intro hsol
      injection hsol with hsol
      rw [← hsol]
    · exact h sol

theorem evalFold_none (layout : Layout) :
    ∀ (pop : List (List Rack)) (acc : List Evaluated × Option Solution × ℝ),
      (pop.foldl (Enhanced.evalStep layout) acc).2.1 = none →
      acc.2.1 = none ∧ (pop.foldl (Enhanced.evalStep layout) acc).2.2 = acc.2.2 := by
  intro pop
  induction pop with
  | nil => intro acc h; exact ⟨h, rfl⟩
  | cons a t ih =>
    intro acc h
    rw [List.foldl_cons] at h ⊢
    obtain ⟨h1, h2⟩ := ih (Enhanced.evalStep layout acc a) h
    rw [evalStep_best] at h1
    rw [h2, evalStep_bestScore]
    revert h1
    split
    · intro h1; cases h1
    · intro h1; exact ⟨h1, rfl⟩

theorem gaLoop_mono_link (layout : Layout) :
    ∀ (n : ℕ) (pop : List (List Rack)) (best : Option Solution) (bs : ℝ) (rng : RandSeq),
      (∀ sol, best = some sol → sol.score = bs) →
      bs ≤ (Enhanced.gaLoop layout n pop best bs rng).2.1 ∧
      (∀ sol, (Enhanced.gaLoop layout n pop best bs rng).1 = some sol →
        sol.score = (Enhanced.gaLoop layout n pop best bs rng).2.1) ∧
      ((Enhanced.gaLoop layout n pop best bs rng).1 = none →
        best = none ∧ (Enhanced.gaLoop layout n pop best bs rng).2.1 = bs) := by
  intro n
  induction n with
  | zero =>
    intro pop best bs rng h
    exact ⟨le_refl _, h, fun hn => ⟨hn, rfl⟩⟩
  | succ n ih =>
    intro pop best bs rng h
    simp only [Enhanced.gaLoop, Enhanced.evaluatePopulation]
    have hlink := evalFold_link layout pop ([], best, bs) (by exact h)
    obtain ⟨hmono, hsome, hnone⟩ := ih _ _ _ _ hlink
    refine ⟨le_trans (evalFold_bestScore_mono layout pop ([], best, bs)) hmono, hsome, ?_⟩
    intro hres
    obtain ⟨hb, hbs⟩ := hnone hres
    obtain ⟨hb', hbs'⟩ := evalFold_none layout pop ([], best, bs) hb
    exact ⟨hb', by rw [hbs, hbs']⟩

/-- C8 (amended): for every input and random stream, the genetic strategy
terminates after the fixed generation count with one of two outcomes: if it
returns a solution, that solution's fitness is the maximum score tracked
over the whole run — in particular at least the fitness of every candidate
of the initial population; if no evaluated candidate ever scores strictly
above the initial `bestScore = 0`, it returns `null` instead of a candidate
(so the claim's "always returns the best observed candidate" fails — see
the counterexample). -/
theorem genetic_returns_best_or_none (racks : List Rack) (layout : Layout) (rng : RandSeq) :
    (∀ sol, Enhanced.geneticAlgorithmOptimization racks layout rng = some sol →
      ∀ individual ∈ (Enhanced.initPopulation racks layout rng).1,
        (Enhanced.evaluateIndividual individual layout).score ≤ sol.score) ∧
    (Enhanced.geneticAlgorithmOptimization racks layout rng = none →
      ∀ individual ∈ (Enhanced.initPopulation racks layout rng).1,
        (Enhanced.evaluateIndividual individual layout).score ≤ 0) := by
  obtain ⟨m, hm⟩ : ∃ m, Enhanced.generations = m + 1 := ⟨99, rfl⟩
  simp only [Enhanced.geneticAlgorithmOptimization, hm]
  simp only [Enhanced.gaLoop, Enhanced.evaluatePopulation]
  set P := Enhanced.initPopulation racks layout rng with hP
  set E := P.1.foldl (Enhanced.evalStep layout) ([], none, (0 : ℝ)) with hE
  have hmembers : ∀ ind ∈ P.1, (Enhanced.evaluateIndividual ind layout).score ≤ E.2.2 :=
    fun ind hind => evalFold_ge_members layout P.1 ([], none, (0 : ℝ)) ind hind
  have hlink : ∀ sol, E.2.1 = some sol → sol.score = E.2.2 :=
    evalFold_link layout P.1 ([], none, (0 : ℝ)) (by intro sol hsol; cases hsol)
  obtain ⟨hmono, hsome, hnone⟩ := gaLoop_mono_link layout m _ E.2.1 E.2.2 _ hlink
  constructor
  · intro sol hsol ind hind
    have hscore := hsome sol hsol
    exact le_trans (hmembers ind hind) (by rw [hscore]; exact hmono)
  · intro hres ind hind
    obtain ⟨hb, hbs⟩ := hnone hres
    obtain ⟨_, hbs'⟩ := evalFold_none layout P.1 ([], none, (0 : ℝ)) hb
    have := hmembers ind hind
    rw [hbs'] at this
    exact this

theorem createRandomIndividual_nil (layout : Layout) (rng : RandSeq) :
    Enhanced.createRandomIndividual [] layout rng = ([], rng) := rfl

theorem initPopAux_nil (layout : Layout) :
    ∀ (n : ℕ) (rng : RandSeq),
      Enhanced.initPopAux [] layout n rng = (List.replicate n [], rng) := by
  intro n
  induction n with
  | zero => intro rng; rfl
  | succ n ih =>
    intro rng
    simp only [Enhanced.initPopAux, createRandomIndividual_nil, ih, List.replicate_succ]

theorem evaluateIndividual_score_nil (layout : Layout) :
    (Enhanced.evaluateIndividual [] layout).score = 0 := by
  simp [Enhanced.evaluateIndividual, buildSolution, Enhanced.calculateScore]

theorem evalFold_nil (layout : Layout) :
    ∀ (pop : List (List Rack)) (ev0 : List Evaluated),
      (∀ ind ∈ pop, ind = ([] : List Rack)) →
      pop.foldl (Enhanced.evalStep layout) (ev0, none, (0 : ℝ)) =
        (ev0 ++ pop.map fun ind =>
          { individual := ind, fitness := (Enhanced.evaluateIndividual ind layout).score,
            solution := Enhanced.evaluateIndividual ind layout },
         (none : Option Solution), (0 : ℝ)) := by
  intro pop
  induction pop with
  | nil => intro ev0 h; simp
  | cons a t ih =>
    intro ev0 h
    have ha : a = [] := h a (List.mem_cons_self a t)
    rw [List.foldl_cons]
    have hstep : Enhanced.evalStep layout (ev0, none, (0 : ℝ)) a =
        (ev0 ++ [{ individual := a,
                   fitness := (Enhanced.evaluateIndividual a layout).score,
                   solution := Enhanced.evaluateIndividual a layout }],
         (none : Option Solution), (0 : ℝ)) := by
      subst ha
      simp [Enhanced.evalStep, evaluateIndividual_score_nil, lt_irrefl]
    rw [hstep, ih _ (fun ind hind => h ind (List.mem_cons_of_mem a hind))]
    simp

theorem evalPop_nil_entries (layout : Layout) (pop : List (List Rack))
    (h : ∀ ind ∈ pop, ind = ([] : List Rack)) :
    (Enhanced.evaluatePopulation layout pop none 0).2.1 = none ∧
    (Enhanced.evaluatePopulation layout pop none 0).2.2 = 0 ∧
    ∀ e ∈ (Enhanced.evaluatePopulation layout pop none 0).1, e.individual = [] := by
  rw [Enhanced.evaluatePopulation, evalFold_nil layout pop [] h]
  refine ⟨rfl, rfl, ?_⟩
  intro e he
  rw [List.nil_append] at he
  rcases List.mem_map.mp he with ⟨ind, hind, rfl⟩
  exact h ind hind

theorem tournamentSelection_nil (sorted : List Evaluated) (rng : RandSeq)
    (h : ∀ e ∈ sorted, e.individual = []) :
    (Enhanced.tournamentSelection sorted rng).1 = [] := by
  have hpick : ∀ r : ℚ,
      (sorted.getD (Int.toNat ⌊r * sorted.length⌋) defaultEvaluated).individual = [] := by
    intro r
    rcases Nat.lt_or_ge (Int.toNat ⌊r * sorted.length⌋) sorted.length with hlt | hge
    · rw [List.getD_eq_getElem sorted defaultEvaluated hlt]
      exact h _ (List.getElem_mem hlt)
    · rw [List.getD_eq_default sorted defaultEvaluated hge]
      rfl
  simp only [Enhanced.tournamentSelection]
  cases hs : Enhanced.sortByFitnessDesc
      [sorted.getD (Int.toNat ⌊(randNext rng).1 * sorted.length⌋) defaultEvaluated,
       sorted.getD (Int.toNat ⌊(randNext (randNext rng).2).1 * sorted.length⌋) defaultEvaluated,
       sorted.getD (Int.toNat ⌊(randNext (randNext (randNext rng).2).2).1 * sorted.length⌋)
         defaultEvaluated] with
  | nil => rfl
  | cons e t =>
    have he : e ∈ Enhanced.sortByFitnessDesc
        [sorted.getD (Int.toNat ⌊(randNext rng).1 * sorted.length⌋) defaultEvaluated,
         sorted.getD (Int.toNat ⌊(randNext (randNext rng).2).1 * sorted.length⌋)
           defaultEvaluated,
         sorted.getD (Int.toNat ⌊(randNext (randNext (randNext rng).2).2).1 * sorted.length⌋)
           defaultEvaluated] := by
      rw [hs]
      exact List.mem_cons_self e t
    rw [Enhanced.sortByFitnessDesc] at he
    have he' := List.mem_mergeSort.mp he
    have heind : e.individual = [] := by
      rcases List.mem_cons.mp he' with h1 | h1
      · rw [h1]; exact hpick _
      · rcases List.mem_cons.mp h1 with h2 | h2
        · rw [h2]; exact hpick _
        · rcases List.mem_cons.mp h2 with h3 | h3
          · rw [h3]; exact hpick _
          · cases h3
    simpa [List.headD] using heind

theorem crossover_nil_left (p2 : List Rack) (rng : RandSeq) :
    (Enhanced.crossover [] p2 rng).1 = [] := by
  simp [Enhanced.crossover]

theorem mutate_nil (layout : Layout) (rng : RandSeq) :
    Enhanced.mutate [] layout rng = ([], rng) := rfl

theorem makeOffspring_nil (layout : Layout) (sorted : List Evaluated)
    (h : ∀ e ∈ sorted, e.individual = []) :
    ∀ (n : ℕ) (rng : RandSeq),
      ∀ ind ∈ (Enhanced.makeOffspring layout sorted n rng).1, ind = ([] : List Rack) := by
  intro n
  induction n with
  | zero =>
    intro rng ind hind
    simp only [Enhanced.makeOffspring] at hind
    cases hind
  | succ n ih =>
    intro rng ind hind
    simp only [Enhanced.makeOffspring] at hind
    rcases List.mem_cons.mp hind with rfl | hmem
    · rw [tournamentSelection_nil sorted rng h, crossover_nil_left, mutate_nil]
    · exact ih _ ind hmem

theorem gaLoop_nil (layout : Layout) :
    ∀ (n : ℕ) (pop : List (List Rack)) (rng : RandSeq),
      (∀ ind ∈ pop, ind = ([] : List Rack)) →
      (Enhanced.gaLoop layout n pop none 0 rng).1 = none := by
  intro n
  induction n with
  | zero => intro pop rng h; rfl
  | succ n ih =>
    intro pop rng h
    simp only [Enhanced.gaLoop]
    obtain ⟨hE1, hE2, hEent⟩ := evalPop_nil_entries layout pop h
    rw [hE1, hE2]
    have hsorted : ∀ e ∈ Enhanced.sortByFitnessDesc
        (Enhanced.evaluatePopulation layout pop none 0).1, e.individual = [] := by
      intro e he
      rw [Enhanced.sortByFitnessDesc] at he
      exact hEent e (List.mem_mergeSort.mp he)
    apply ih
    intro ind hind
    rcases List.mem_append.mp hind with hmem | hmem
    · rcases List.mem_map.mp hmem with ⟨e, he, rfl⟩
      exact hsorted e (List.mem_of_mem_take he)
    · exact makeOffspring_nil layout _ hsorted _ _ ind hmem

/-- Whatever the layout and random stream, running the genetic strategy with
no racks returns `null` — never a candidate. -/
theorem genetic_nil (layout : Layout) (rng : RandSeq) :
    Enhanced.geneticAlgorithmOptimization [] layout rng = none := by
  simp only [Enhanced.geneticAlgorithmOptimization, Enhanced.initPopulation,
    initPopAux_nil]
  exact gaLoop_nil layout Enhanced.generations _ rng
    (fun ind hind => List.eq_of_mem_replicate hind)

/-- C8 counterexample: with zero requested racks the initial population
holds `populationSize` (observed) candidates, every one of fitness 0, and
after all generations the strategy returns `null` rather than the best
observed candidate. -/
theorem genetic_returns_none_despite_candidates :
    Enhanced.geneticAlgorithmOptimization [] layoutPlain [] = none ∧
    (Enhanced.initPopulation [] layoutPlain []).1.length = Enhanced.populationSize := by
  refine ⟨genetic_nil layoutPlain [], ?_⟩
  rw [Enhanced.initPopulation, initPopAux_nil]
  exact List.length_replicate _ _

/-- C8 witness: the theorem applied at the concrete no-rack input, where the
run returns `null` and every initial candidate indeed has fitness ≤ 0. -/
theorem genetic_returns_best_or_none_witness :
    ([] : List Rack) ∈ (Enhanced.initPopulation [] layoutPlain []).1 ∧
    (Enhanced.evaluateIndividual [] layoutPlain).score ≤ 0 := by
  have hmem : ([] : List Rack) ∈ (Enhanced.initPopulation [] layoutPlain []).1 := by
    rw [Enhanced.initPopulation, initPopAux_nil]
    exact List.mem_replicate.mpr ⟨by norm_num [Enhanced.populationSize], rfl⟩
  exact ⟨hmem, (genetic_returns_best_or_none [] layoutPlain []).2
    (genetic_nil layoutPlain []) [] hmem⟩

/-- C9 witness: the theorem applied to a concrete two-rack individual (one
placed, one unplaced) and a concrete draw stream. -/
theorem mutate_preserves_rack_identity_witness :
    keepsIdentity
      ((Enhanced.mutate individualW layoutPlain [1]).1.get
        ⟨1, by rw [mutate_length]; norm_num [individualW]⟩)
      (individualW.get ⟨1, by norm_num [individualW]⟩) ∧
    ((individualW.get ⟨1, by norm_num [individualW]⟩).position = none →
      ((Enhanced.mutate individualW layoutPlain [1]).1.get
        ⟨1, by rw [mutate_length]; norm_num [individualW]⟩).position = none) :=
  (mutate_preserves_rack_identity individualW layoutPlain [1]).2 1
    (by rw [mutate_length]; norm_num [individualW]) (by norm_num [individualW])

end DarkStore
